import Mathlib

/-!
# Verification of `photutils.centroids.core`

A shallow embedding of the centroiding module. Pixel values are modelled
by `PVal`: either a finite rational or a single non-finite value (`nan`),
which stands for any IEEE non-finite (NaN or ±Inf). All code paths that
matter here either test finiteness (`np.isfinite`) — which does not
distinguish NaN from Inf — or zero-fill non-finite entries before doing
arithmetic, so one absorbing non-finite value is a faithful model.
Fallible numpy behaviour (ValueError, IndexError) is modelled by
`Except String`.
-/

/-- A floating-point pixel value: a finite rational, or a non-finite
value (NaN/Inf collapsed into one absorbing element). -/
inductive PVal where
  | fin (q : ℚ)
  | nan
  deriving DecidableEq, Repr

namespace PVal

/-- `np.isfinite`. -/
def isfinite : PVal → Bool
  | fin _ => true
  | nan => false

def add : PVal → PVal → PVal
  | fin a, fin b => fin (a + b)
  | _, _ => nan

def sub : PVal → PVal → PVal
  | fin a, fin b => fin (a - b)
  | _, _ => nan

def mul : PVal → PVal → PVal
  | fin a, fin b => fin (a * b)
  | _, _ => nan

/-- Division; a zero divisor yields a non-finite value (numpy produces
NaN or ±Inf there, both collapsed into `nan`). -/
def div : PVal → PVal → PVal
  | fin a, fin b => if b = 0 then nan else fin (a / b)
  | _, _ => nan

/-- `np.abs`. -/
def pabs : PVal → PVal
  | fin a => fin |a|
  | nan => nan

/-- Division by a rational scalar. -/
def divQ (v : PVal) (s : ℚ) : PVal := v.div (fin s)

/-- Zero-fill a value that is masked out. -/
def fillIf (b : Bool) (v : PVal) : PVal := if b then fin 0 else v

/-- Coercion to bool (`np.asarray(mask, dtype=bool)`): any nonzero
value, including a non-finite one, is `true`. -/
def truthy : PVal → Bool
  | fin q => q ≠ 0
  | nan => true

/-- Value of a pixel once non-finite entries have been zeroed, as a
rational. -/
def fillNonfinite : PVal → ℚ
  | fin q => q
  | nan => 0

end PVal

/-- Sum of a list of values (`np.sum` on an all-finite array in ℚ). -/
def qsum (l : List ℚ) : ℚ := l.foldr (· + ·) 0

/-- An n-dimensional dense array: a shape and the flat row-major data. -/
structure NDArr where
  shape : List ℕ
  cells : List PVal
  deriving DecidableEq, Repr

/-- All multi-indices of a shape, in row-major order (the storage order
of the flat cell list). -/
def ndIndices : List ℕ → List (List ℕ)
  | [] => [[]]
  | n :: rest => (List.range n).flatMap fun i => (ndIndices rest).map (i :: ·)

/-- The oversampling (and shape-like) arguments of the Python API: a
scalar or a 1-D sequence. -/
inductive ScalarOrList (α : Type) where
  | scalar (s : α)
  | arr (l : List α)
  deriving DecidableEq, Repr

/-- `np.atleast_1d`. -/
def ScalarOrList.atleast1d {α : Type} : ScalarOrList α → List α
  | scalar s => [s]
  | arr l => l

/-- The oversampling broadcast done by `centroid_com` and
`centroid_epsf`: `np.atleast_1d` followed by `np.repeat(·, 2)` when the
result has a single element. -/
def broadcastOversampling (ov : ScalarOrList ℚ) : List ℚ :=
  let l := ov.atleast1d
  if l.length = 1 then l ++ l else l

/-- `sum(indices[axis] * data)` over the zero-filled cells of an array
with the given shape, in the source the product of the `np.ogrid` index
grid for one axis with the data. -/
def comMoment (shape : List ℕ) (filled : List ℚ) (axis : ℕ) : ℚ :=
  qsum (((ndIndices shape).zip filled).map fun p =>
    ((p.1.getD axis 0 : ℕ) : ℚ) * p.2)

/-- `centroid_com(data, mask=None, oversampling=1.)` from
`photutils/centroids/core.py`. Returns the centroid coordinates in
pixel order, or the message of the ValueError/IndexError raised. -/
def centroid_com (data : NDArr) (mask : Option NDArr)
    (oversampling : ScalarOrList ℚ) : Except String (List PVal) := do
  -- oversampling = np.atleast_1d(oversampling); repeat to 2 if scalar;
  -- then reversed to match numpy axis order
  let ov := (broadcastOversampling oversampling).reverse
  if ov.any (· ≤ 0) then
    throw "Oversampling factors must all be positive numbers."
  -- data = data.astype(float)  (a copy; the caller's array is untouched)
  let cells := data.cells
  -- data[mask] = 0.
  let cells ← match mask with
    | none => pure cells
    | some m =>
        if data.shape ≠ m.shape then
          throw "data and mask must have the same shape."
        else
          pure ((cells.zip m.cells).map fun p => p.1.fillIf p.2.truthy)
  -- data[~np.isfinite(data)] = 0.  (with a non-fatal warning)
  let filled : List ℚ := cells.map PVal.fillNonfinite
  -- total = np.sum(data)
  let total := qsum filled
  -- [np.sum(indices[axis] * data) / total / oversampling[axis] ...][::-1]
  let res ← (List.range data.shape.length).mapM fun axis =>
    match ov.get? axis with
    | none => throw "index out of bounds for oversampling"
    | some s =>
        pure (((PVal.fin (comMoment data.shape filled axis)).div
          (PVal.fin total)).divQ s)
  pure res.reverse

theorem PVal.divQ_one (p : PVal) : p.divQ 1 = p := by
  cases p <;> simp [PVal.divQ, PVal.div]

instance exceptDecEq {ε α : Type} [DecidableEq ε] [DecidableEq α] :
    DecidableEq (Except ε α)
  | .error e, .error f =>
      if h : e = f then .isTrue (by rw [h]) else .isFalse (by simp [h])
  | .error _, .ok _ => .isFalse (by simp)
  | .ok _, .error _ => .isFalse (by simp)
  | .ok a, .ok b =>
      if h : a = b then .isTrue (by rw [h]) else .isFalse (by simp [h])

theorem except_error_bind {ε α β : Type} (e : ε) (k : α → Except ε β) :
    (Except.error e : Except ε α) >>= k = Except.error e := rfl

theorem except_ok_bind {ε α β : Type} (a : α) (k : α → Except ε β) :
    (Except.ok a : Except ε α) >>= k = k a := rfl

theorem except_pure_eq {ε α : Type} (a : α) :
    (pure a : Except ε α) = Except.ok a := rfl

theorem except_throw_eq {ε α : Type} (e : ε) :
    (throw e : Except ε α) = Except.error e := rfl

/-- If `g` succeeds with `h x` whenever `f` succeeds with `x`, a
successful `mapM f` transports to a successful `mapM g`. -/
theorem mapM_ok_map {α β : Type} (f g : α → Except String β) (h : β → β)
    (H : ∀ a x, f a = Except.ok x → g a = Except.ok (h x)) :
    ∀ (l : List α) (v : List β),
      l.mapM f = Except.ok v → l.mapM g = Except.ok (v.map h) := by
  intro l
  induction l with
  | nil => intro v hv; simp only [List.mapM_nil] at hv ⊢; cases hv; rfl
  | cons a t ih =>
      intro v hv
      simp only [List.mapM_cons] at hv ⊢
      cases hfa : f a with
      | error e =>
          rw [hfa, except_error_bind] at hv
          exact absurd hv (by simp)
      | ok x =>
          rw [hfa, except_ok_bind] at hv
          cases hft : t.mapM f with
          | error e =>
              rw [hft, except_error_bind] at hv
              exact absurd hv (by simp)
          | ok xs =>
              rw [hft, except_ok_bind] at hv
              rw [except_pure_eq, Except.ok.injEq] at hv
              subst hv
              rw [H a x hfa, except_ok_bind, ih xs hft, except_ok_bind,
                except_pure_eq, List.map_cons]

/-- Transport of `X >>= (pure ∘ reverse)` along an elementwise map. -/
theorem bind_reverse_ok {β : Type} (X Y : Except String (List β)) (h : β → β)
    (HXY : ∀ res, X = Except.ok res → Y = Except.ok (res.map h))
    (v : List β) (hv : (X >>= fun r => pure r.reverse) = Except.ok v) :
    (Y >>= fun r => pure r.reverse) = Except.ok (v.map h) := by
  cases hX : X with
  | error e => rw [hX, except_error_bind] at hv; exact absurd hv (by simp)
  | ok res =>
      rw [hX, except_ok_bind, except_pure_eq, Except.ok.injEq] at hv
      rw [HXY res hX, except_ok_bind, except_pure_eq, ← hv,
        List.map_reverse]

/-- C1: `centroid_com` is claimed to return the per-axis moment
centroid for arrays of any dimension with a scalar (or pair)
oversampling argument; on a 3-D all-ones array with the default scalar
oversampling the code instead raises an IndexError, because the
oversampling argument is broadcast to exactly two factors and then
indexed at axis 2. -/
theorem centroid_com_3d_default_oversampling_raises :
    centroid_com ⟨[2, 2, 2], List.replicate 8 (PVal.fin 1)⟩ none
      (ScalarOrList.scalar 1) =
      Except.error "index out of bounds for oversampling" := by
  rfl

/-- C7: for every data array on which `centroid_com` succeeds with the
default oversampling and every positive scalar `s`,
`centroid_com(data, oversampling=s)` equals `centroid_com(data)` with
every coordinate divided by `s`. -/
theorem centroid_com_oversampling_scalar_scales (data : NDArr) (s : ℚ)
    (hs : 0 < s) (v : List PVal)
    (hdef : centroid_com data none (ScalarOrList.scalar 1) = Except.ok v) :
    centroid_com data none (ScalarOrList.scalar s) =
      Except.ok (v.map (·.divQ s)) := by
  unfold centroid_com at hdef ⊢
  simp only [broadcastOversampling, ScalarOrList.atleast1d, List.length_cons,
    List.length_nil, ite_true, List.reverse_cons, List.reverse_nil,
    List.nil_append, List.singleton_append, List.any_cons, List.any_nil,
    Bool.or_false, except_pure_eq, except_ok_bind] at hdef ⊢
  rw [show (decide (s ≤ 0)) = false from decide_eq_false (not_le.mpr hs)]
  rw [show (decide ((1 : ℚ) ≤ 0)) = false from by decide] at hdef
  simp only [Bool.or_self, Bool.false_eq_true, ite_false, except_pure_eq,
    except_ok_bind] at hdef ⊢
  refine bind_reverse_ok _ _ (·.divQ s) (fun res hres => ?_) v hdef
  refine mapM_ok_map _ _ (·.divQ s) (fun a x hx => ?_) _ res hres
  match a with
  | 0 =>
      simp only [List.get?, except_pure_eq, Except.ok.injEq] at hx ⊢
      rw [← hx, PVal.divQ_one]
  | 1 =>
      simp only [List.get?, except_pure_eq, Except.ok.injEq] at hx ⊢
      rw [← hx, PVal.divQ_one]
  | (n + 2) =>
      simp only [List.get?, except_throw_eq] at hx
      exact absurd hx (by simp)

/-- C7 witness: a uniform 2×2 array with scalar oversampling 2. -/
theorem centroid_com_oversampling_scalar_scales_witness :
    centroid_com ⟨[2, 2], List.replicate 4 (PVal.fin 1)⟩ none
      (ScalarOrList.scalar 2) =
      Except.ok ([PVal.fin (1 / 2), PVal.fin (1 / 2)].map (·.divQ 2)) :=
  centroid_com_oversampling_scalar_scales _ 2 (by norm_num) _ (by
    norm_num [centroid_com, broadcastOversampling, ScalarOrList.atleast1d,
      comMoment, ndIndices, qsum, PVal.fillNonfinite, List.range_succ,
      except_pure_eq, except_ok_bind, PVal.divQ, PVal.div, List.mapM_cons,
      List.mapM_nil, List.mapM.loop, List.replicate, List.zip, List.zipWith,
      PVal.fin.injEq])

/-- Sum of a list of `PVal`s (`np.sum` where non-finite values may be
present; any non-finite summand absorbs). -/
def psum (l : List PVal) : PVal := l.foldr PVal.add (PVal.fin 0)

/-- `x_mean = np.sum(x * data) / np.sum(data)` over a zero-filled 1-D
array, with `x` the 0-based index sequence. -/
def xMeanOf (d : List ℚ) : PVal :=
  (PVal.fin (qsum (((List.range d.length).zip d).map fun p =>
    (p.1 : ℚ) * p.2))).div (PVal.fin (qsum d))

/-- `np.sum(data * (x - x_mean)**2)` over a zero-filled 1-D array. -/
def secondMomentOf (d : List ℚ) : PVal :=
  psum (((List.range d.length).zip d).map fun p =>
    (PVal.fin p.2).mul (((PVal.fin (p.1 : ℚ)).sub (xMeanOf d)).mul
      ((PVal.fin (p.1 : ℚ)).sub (xMeanOf d))))

/-- The radicand of the source's
`x_stddev = np.sqrt(abs(np.sum(data * (x - x_mean)**2) / np.sum(data)))`:
the absolute value wraps the whole quotient. `np.sqrt`, applied last in
the source, is strictly monotone on the non-negative reals and sends
negative and non-finite arguments to non-finite values; the rational
model reports the radicand. -/
def stddevSqOf (d : List ℚ) : PVal :=
  ((secondMomentOf d).div (PVal.fin (qsum d))).pabs

/-- `np.ptp`: peak-to-peak (max minus min) of a 1-D array; undefined on
an empty one (the source raises a ValueError there). -/
def ptpQ : List ℚ → ℚ
  | [] => 0
  | q :: rest => rest.foldl max q - rest.foldl min q

/-- `gaussian1d_moments(data, mask=None)` for 1-D input from
`photutils/centroids/core.py`. The third component is the radicand of
the `np.sqrt` in the source (see `stddevSqOf`). -/
def gaussian1d_moments (data : List PVal) (mask : Option (List Bool)) :
    Except String (ℚ × PVal × PVal) := do
  -- np.ma.masked_invalid(data) when non-finite values are present
  -- (with a non-fatal warning), else np.ma.array(data) with no mask
  let dmask : Option (List Bool) :=
    if data.any (fun v => !v.isfinite) then
      some (data.map fun v => !v.isfinite)
    else none
  -- data.mask |= mask, after the data/mask shape check
  let dmask ← match mask with
    | none => pure dmask
    | some m =>
        if data.length ≠ m.length then
          throw "data and mask must have the same shape."
        else
          pure (some (match dmask with
            | none => m
            | some dm => (dm.zip m).map fun p => p.1 || p.2))
  -- data.fill_value = 0.; data = data.filled()
  let d : List ℚ := match dmask with
    | none => data.map PVal.fillNonfinite
    | some dm => (data.zip dm).map fun p => if p.2 then 0 else p.1.fillNonfinite
  -- x = np.arange(data.size); moments; then amplitude = np.ptp(data),
  -- which raises on an empty array
  match d with
  | [] => throw "zero-size array to reduction operation maximum which has no identity"
  | q :: rest =>
      pure (rest.foldl max q - rest.foldl min q, xMeanOf d, stddevSqOf d)

/-- The claim's stddev radicand, modelled from C8's wording
`stddev = sqrt(|sum(data*(x-mean)^2)| / sum(data))`: the absolute value
wraps only the numerator sum. -/
def claimStddevSqC8 (d : List ℚ) : PVal :=
  ((secondMomentOf d).pabs).div (PVal.fin (qsum d))

/-- The zero-filled working array of C8's wording: masked entries and
non-finite entries replaced by 0. -/
def specFilled (data : List PVal) (mask : Option (List Bool)) : List ℚ :=
  match mask with
  | none => data.map PVal.fillNonfinite
  | some m => (data.zip m).map fun p => if p.2 then 0 else p.1.fillNonfinite

theorem PVal.isfinite_fin (q : ℚ) : (PVal.fin q).isfinite = true := rfl

theorem PVal.isfinite_nan : PVal.nan.isfinite = false := rfl

theorem PVal.fillNonfinite_fin (q : ℚ) : (PVal.fin q).fillNonfinite = q := rfl

theorem PVal.fillNonfinite_nan : PVal.nan.fillNonfinite = 0 := rfl

theorem fill_automask (data : List PVal) :
    (data.zip (data.map fun v => !v.isfinite)).map
      (fun p => if p.2 = true then 0 else p.1.fillNonfinite) =
    data.map PVal.fillNonfinite := by
  induction data with
  | nil => rfl
  | cons v t ih =>
      cases v with
      | fin q =>
          simp only [List.map_cons, List.zip_cons_cons, PVal.isfinite_fin,
            Bool.not_true, Bool.false_eq_true, if_false, ite_false,
            PVal.fillNonfinite_fin, ih]
      | nan =>
          simp only [List.map_cons, List.zip_cons_cons, PVal.isfinite_nan,
            Bool.not_false, if_true, ite_true, PVal.fillNonfinite_nan, ih]

theorem fill_automask_or (data : List PVal) (m : List Bool) :
    (data.zip (((data.map fun v => !v.isfinite).zip m).map
        fun p => p.1 || p.2)).map
      (fun p => if p.2 = true then 0 else p.1.fillNonfinite) =
    (data.zip m).map (fun p => if p.2 = true then 0 else p.1.fillNonfinite) := by
  induction data generalizing m with
  | nil => rfl
  | cons v t ih =>
      cases m with
      | nil => rfl
      | cons b mb =>
          cases v with
          | fin q =>
              simp only [List.map_cons, List.zip_cons_cons, PVal.isfinite_fin,
                Bool.not_true, Bool.false_or, PVal.fillNonfinite_fin, ih]
          | nan =>
              simp only [List.map_cons, List.zip_cons_cons, PVal.isfinite_nan,
                Bool.not_false, Bool.true_or, if_true, ite_true,
                PVal.fillNonfinite_nan, ih, ite_self]

theorem specFilled_length (data : List PVal) (mask : Option (List Bool))
    (hm : ∀ m, mask = some m → m.length = data.length) :
    (specFilled data mask).length = data.length := by
  cases mask with
  | none => simp [specFilled]
  | some m => simp [specFilled, hm m rfl]

/-- C8 (amended): for every 1-D input with a matching (or absent) mask,
`gaussian1d_moments` succeeds exactly when the data is non-empty, and
then returns the peak-to-peak amplitude, the moment mean
`sum(x*data)/sum(data)`, and the stddev radicand
`|sum(data*(x-mean)^2) / sum(data)|` (absolute value around the whole
quotient), all over the zero-filled working array; on an empty input
the `np.ptp` reduction raises. -/
theorem gaussian1d_moments_spec (data : List PVal) (mask : Option (List Bool))
    (hm : ∀ m, mask = some m → m.length = data.length) :
    ((gaussian1d_moments data mask).isOk = true ↔ data ≠ []) ∧
    (data ≠ [] →
      gaussian1d_moments data mask =
        Except.ok (ptpQ (specFilled data mask),
          xMeanOf (specFilled data mask),
          stddevSqOf (specFilled data mask))) := by
  have hlen := specFilled_length data mask hm
  have key : gaussian1d_moments data mask =
      match specFilled data mask with
      | [] => Except.error
          "zero-size array to reduction operation maximum which has no identity"
      | q :: rest =>
          Except.ok (List.foldl max q rest - List.foldl min q rest,
            xMeanOf (specFilled data mask), stddevSqOf (specFilled data mask)) := by
    unfold gaussian1d_moments
    cases mask with
    | none =>
        simp only [except_pure_eq, except_ok_bind]
        by_cases hnf : data.any (fun v => !v.isfinite) = true
        · rw [if_pos hnf]
          simp only [fill_automask, except_throw_eq]
          rfl
        · rw [if_neg hnf]
          simp only [except_throw_eq]
          rfl
    | some m =>
        simp only [except_pure_eq, except_ok_bind]
        rw [if_neg (show ¬data.length ≠ m.length from by simp [hm m rfl])]
        by_cases hnf : (data.any fun v => !v.isfinite) = true
        · rw [if_pos hnf]
          simp only [fill_automask_or, except_throw_eq]
          rfl
        · rw [if_neg hnf]
          simp only [except_throw_eq]
          rfl
  rw [key]
  cases hF : specFilled data mask with
  | nil =>
      have hdata : data = [] := by
        rw [hF] at hlen
        exact List.eq_nil_of_length_eq_zero hlen.symm
      subst hdata
      simp [Except.isOk, Except.toBool]
  | cons q rest =>
      have hdata : data ≠ [] := by
        rw [hF] at hlen
        simp only [List.length_cons] at hlen
        exact List.ne_nil_of_length_pos (by omega)
      simp only [hF]
      constructor
      · simp [Except.isOk, Except.toBool, hdata]
      · intro _
        simp [ptpQ]


theorem list_range_two : List.range 2 = [0, 1] := rfl

/-- C8 counterexample: on `data = [-1, -1]` with no mask the source
computes the stddev radicand `|sum/total| = 1/4` (so `np.sqrt` returns
`1/2`), while the claim's formula `|sum| / total` gives `-1/4`, whose
square root is non-finite; the remaining components agree. -/
theorem gaussian1d_moments_stddev_abs_counterexample :
    gaussian1d_moments [PVal.fin (-1), PVal.fin (-1)] none =
      Except.ok (0, PVal.fin (1 / 2), PVal.fin (1 / 4)) ∧
    claimStddevSqC8 [(-1 : ℚ), -1] = PVal.fin (-(1 / 4)) := by
  constructor
  · unfold gaussian1d_moments
    simp only [List.any_cons, List.any_nil, PVal.isfinite_fin, Bool.not_true,
      Bool.or_false, Bool.or_self, Bool.false_eq_true, ite_false,
      except_pure_eq, except_ok_bind, List.map_cons, List.map_nil,
      PVal.fillNonfinite_fin]
    norm_num [xMeanOf, stddevSqOf, secondMomentOf, psum, qsum, PVal.div,
      PVal.mul, PVal.sub, PVal.add, PVal.pabs, list_range_two,
      List.zip_cons_cons, List.zip_nil_right, List.foldr_cons, List.foldr_nil,
      List.map_cons, List.map_nil, List.length_cons, List.length_nil,
      PVal.fin.injEq, Prod.mk.injEq]
  · have habs : |(1 : ℚ) / 2| = 1 / 2 := abs_of_pos (by norm_num)
    norm_num [claimStddevSqC8, secondMomentOf, xMeanOf, psum, qsum, PVal.div,
      PVal.mul, PVal.sub, PVal.add, PVal.pabs, list_range_two,
      List.zip_cons_cons, List.zip_nil_right, List.foldr_cons, List.foldr_nil,
      List.map_cons, List.map_nil, List.length_cons, List.length_nil,
      PVal.fin.injEq, habs]

/-- C8 witness: a concrete non-empty unmasked input. -/
theorem gaussian1d_moments_spec_witness :
    gaussian1d_moments [PVal.fin 2, PVal.fin 0] none =
      Except.ok (ptpQ (specFilled [PVal.fin 2, PVal.fin 0] none),
        xMeanOf (specFilled [PVal.fin 2, PVal.fin 0] none),
        stddevSqOf (specFilled [PVal.fin 2, PVal.fin 0] none)) :=
  (gaussian1d_moments_spec [PVal.fin 2, PVal.fin 0] none (by simp)).2
    (by simp)

/-- A 2-D dense array (row-major). -/
structure Arr2 where
  ny : ℕ
  nx : ℕ
  cells : List PVal
  deriving DecidableEq, Repr

/-- numpy integer indexing on one axis: indices in `[0, n)` are used as
is, indices in `[-n, 0)` wrap around, anything else raises IndexError. -/
def npIdx (n : ℕ) (i : ℤ) : Except String ℕ :=
  if 0 ≤ i ∧ i < (n : ℤ) then Except.ok i.toNat
  else if -(n : ℤ) ≤ i ∧ i < 0 then Except.ok (i + n).toNat
  else Except.error "index out of bounds"

/-- Total cell accessor for in-range (row, column) positions. -/
def Arr2.at (a : Arr2) (y x : ℕ) : PVal :=
  (a.cells.get? (y * a.nx + x)).getD PVal.nan

/-- `data[y, x]` with numpy index semantics. -/
def Arr2.get (a : Arr2) (y x : ℤ) : Except String PVal := do
  let yi ← npIdx a.ny y
  let xi ← npIdx a.nx x
  pure (a.at yi xi)

/-- `np.around` on a rational: round half to even, as IEEE `rint`. -/
def npAround (q : ℚ) : ℤ :=
  let f := ⌊q⌋
  let r := q - f
  if r < 1 / 2 then f
  else if 1 / 2 < r then f + 1
  else if f % 2 = 0 then f else f + 1

/-- The zero-fill of masked entries done by `centroid_epsf`
(`data = data.astype(float); data[mask] = 0.`). -/
def epsfFilled (data : Arr2) (mask : Option Arr2) : Arr2 :=
  match mask with
  | none => data
  | some m =>
      ⟨data.ny, data.nx,
        (data.cells.zip m.cells).map fun p => p.1.fillIf p.2.truthy⟩

/-- What `centroid_epsf` computes before the shift indices: the
validated inputs, the zero-filled array, the center indices
`(size - 1) / 2` and their native-pixel coordinates, and the two
oversampling factors. -/
structure EpsfPre where
  arr : Arr2
  xidx0 : ℕ
  yidx0 : ℕ
  x0 : ℚ
  y0 : ℚ
  ovx : ℚ
  ovy : ℚ
  deriving DecidableEq, Repr

/-- Lines 533–554 of `photutils/centroids/core.py`: oversampling
broadcast and validation, the masked zero-fill and its shape check, the
`shift_val` check, and the center pixel of the assumed odd-sized grid
with its native-pixel coordinate. -/
def epsfPrelude (data : Arr2) (mask : Option Arr2)
    (oversampling : ScalarOrList ℚ) (shift_val : ℚ) :
    Except String EpsfPre :=
  let ov := broadcastOversampling oversampling
  if ov.any (· ≤ 0) then
    Except.error "Oversampling factors must all be positive numbers."
  else
    -- data = data.astype(float); data[mask] = 0. (after the shape check)
    match (match mask with
      | none => Except.ok (epsfFilled data none)
      | some m =>
          if (data.ny, data.nx) ≠ (m.ny, m.nx) then
            Except.error "data and mask must have the same shape."
          else Except.ok (epsfFilled data (some m))) with
    | Except.error e => Except.error e
    | Except.ok a =>
        if shift_val ≤ 0 then
          Except.error "shift_val must be a positive number."
        else
          -- xidx_0 = int((data.shape[1] - 1) / 2)
          -- x_0 = np.arange(data.shape[1])[xidx_0] / oversampling[0]
          -- (and the same on the y axis); each of the four indexings can
          -- raise an IndexError, all carrying the same message here
          let xidx0 := (data.nx - 1) / 2
          let yidx0 := (data.ny - 1) / 2
          match ov.get? 0, ov.get? 1 with
          | some ovx, some ovy =>
              if xidx0 < data.nx ∧ yidx0 < data.ny then
                Except.ok ⟨a, xidx0, yidx0,
                  (xidx0 : ℚ) / ovx, (yidx0 : ℚ) / ovy, ovx, ovy⟩
              else Except.error "index out of bounds"
          | _, _ => Except.error "index out of bounds"

/-- Lines 559–602 of `photutils/centroids/core.py`, with the two shift
indices as parameters: the 4×4 finiteness check over
`{center, center+shift, center+shift±1}` on each axis, then the psi
values, absolute central differences and the final shifts. -/
def epsfCore (p : EpsfPre) (xShift yShift : ℤ) :
    Except String (PVal × PVal) := do
  let a := p.arr
  let xi : ℤ := p.xidx0
  let yi : ℤ := p.yidx0
  -- badidx = ~isfinite([data[y, x] for x in [...] for y in [...]])
  let checked ← ([xi, xi + xShift, xi + xShift - 1, xi + xShift + 1]).mapM
    fun x => ([yi, yi + yShift, yi + yShift - 1, yi + yShift + 1]).mapM
      fun y => a.get y x
  if checked.flatten.any (fun v => !v.isfinite) then
    throw "One or more centroiding pixels is set to a bad value, e.g., NaN or inf."
  -- psi_E(0.5, 0.0) and the values used to compute derivatives
  let psiPosX ← a.get yi (xi + xShift)
  let psiPosXm1 ← a.get yi (xi + xShift - 1)
  let psiPosXp1 ← a.get yi (xi + xShift + 1)
  let dpsiPosX := ((psiPosXp1.sub psiPosXm1).pabs).divQ (2 / p.ovx)
  -- psi_E(-0.5, 0.0) and derivative components
  let psiNegX ← a.get yi (xi - xShift)
  let psiNegXm1 ← a.get yi (xi - xShift - 1)
  let psiNegXp1 ← a.get yi (xi - xShift + 1)
  let dpsiNegX := ((psiNegXp1.sub psiNegXm1).pabs).divQ (2 / p.ovx)
  let xS := (psiPosX.sub psiNegX).div (dpsiPosX.add dpsiNegX)
  -- psi_E(0.0, 0.5) and derivatives
  let psiPosY ← a.get (yi + yShift) xi
  let psiPosYm1 ← a.get (yi + yShift - 1) xi
  let psiPosYp1 ← a.get (yi + yShift + 1) xi
  let dpsiPosY := ((psiPosYp1.sub psiPosYm1).pabs).divQ (2 / p.ovy)
  -- psi_E(0.0, -0.5) and derivative components
  let psiNegY ← a.get (yi - yShift) xi
  let psiNegYm1 ← a.get (yi - yShift - 1) xi
  let psiNegYp1 ← a.get (yi - yShift + 1) xi
  let dpsiNegY := ((psiNegYp1.sub psiNegYm1).pabs).divQ (2 / p.ovy)
  let yS := (psiPosY.sub psiNegY).div (dpsiPosY.add dpsiNegY)
  pure ((PVal.fin p.x0).add xS, (PVal.fin p.y0).add yS)

/-- `centroid_epsf(data, mask=None, oversampling=4, shift_val=0.5)` from
`photutils/centroids/core.py`. Both shift indices are computed from
`oversampling[0]` (source lines 556–557). -/
def centroid_epsf (data : Arr2) (mask : Option Arr2)
    (oversampling : ScalarOrList ℚ) (shift_val : ℚ) :
    Except String (PVal × PVal) := do
  let p ← epsfPrelude data mask oversampling shift_val
  -- x_shiftidx = np.around(shift_val * oversampling[0]).astype(int)
  -- y_shiftidx = np.around(shift_val * oversampling[0]).astype(int)
  epsfCore p (npAround (shift_val * p.ovx)) (npAround (shift_val * p.ovx))

/-- `centroid_epsf` with the two integer shift indices supplied by the
caller instead of computed from `shift_val` and an oversampling factor. -/
def centroid_epsfWithShift (data : Arr2) (mask : Option Arr2)
    (oversampling : ScalarOrList ℚ) (shift_val : ℚ) (xShift yShift : ℤ) :
    Except String (PVal × PVal) := do
  let p ← epsfPrelude data mask oversampling shift_val
  epsfCore p xShift yShift

/-- When the prelude of `centroid_epsf` succeeds, the x oversampling
factor it hands on is the first element of the broadcast oversampling
argument. -/
theorem epsfPrelude_ovx (data : Arr2) (mask : Option Arr2)
    (ov : ScalarOrList ℚ) (sv : ℚ) (p : EpsfPre)
    (hp : epsfPrelude data mask ov sv = Except.ok p) :
    p.ovx = (broadcastOversampling ov).getD 0 0 := by
  simp only [epsfPrelude] at hp
  split at hp
  · exact absurd hp (by simp)
  · split at hp
    · exact absurd hp (by simp)
    · split at hp
      · exact absurd hp (by simp)
      · split at hp
        · split at hp
          · rename_i hget _ _
            cases hp
            simp [List.getD_eq_getElem?_getD, ← List.get?_eq_getElem?, hget]
          · exact absurd hp (by simp)
        · exact absurd hp (by simp)

/-- C3: for every input, `centroid_epsf` behaves as the
shift-parameterized variant invoked with
`round(shift_val * oversampling[x-axis])` as the shift index on BOTH
axes: the y-axis shift index is also derived from the x-axis
oversampling factor. -/
theorem centroid_epsf_shift_from_x_oversampling (data : Arr2)
    (mask : Option Arr2) (ov : ScalarOrList ℚ) (sv : ℚ) :
    centroid_epsf data mask ov sv =
      centroid_epsfWithShift data mask ov sv
        (npAround (sv * (broadcastOversampling ov).getD 0 0))
        (npAround (sv * (broadcastOversampling ov).getD 0 0)) := by
  unfold centroid_epsf centroid_epsfWithShift
  cases hp : epsfPrelude data mask ov sv with
  | error e => rw [except_error_bind, except_error_bind]
  | ok p =>
      rw [except_ok_bind, except_ok_bind,
        epsfPrelude_ovx data mask ov sv p hp]

/-- Reading an in-range position never fails and yields the stored
cell. -/
theorem Arr2.get_inbounds (a : Arr2) (y x : ℤ) (hy0 : 0 ≤ y)
    (hy : y < (a.ny : ℤ)) (hx0 : 0 ≤ x) (hx : x < (a.nx : ℤ)) :
    a.get y x = Except.ok (a.at y.toNat x.toNat) := by
  unfold Arr2.get npIdx
  rw [if_pos ⟨hy0, hy⟩]
  rw [except_ok_bind, if_pos ⟨hx0, hx⟩, except_ok_bind, except_pure_eq]

/-- `mapM` of a function that succeeds everywhere on the list. -/
theorem mapM_ok_of_all {α β : Type} (l : List α) (f : α → Except String β)
    (g : α → β) (h : ∀ a ∈ l, f a = Except.ok (g a)) :
    l.mapM f = Except.ok (l.map g) := by
  induction l with
  | nil => rfl
  | cons a t ih =>
      rw [List.mapM_cons, h a (by simp), except_ok_bind,
        ih (fun b hb => h b (by simp [hb])), except_ok_bind, except_pure_eq,
        List.map_cons]

/-- A bind avoids an error value when both sides do. -/
theorem bind_ne_error {α β : Type} (X : Except String α)
    (k : α → Except String β) (m : String) (hX : X ≠ Except.error m)
    (hk : ∀ v, k v ≠ Except.error m) : (X >>= k) ≠ Except.error m := by
  cases X with
  | error e =>
      rw [except_error_bind]
      intro hc
      rw [Except.error.injEq] at hc
      exact hX (by rw [hc])
  | ok v => rw [except_ok_bind]; exact hk v

/-- An indexing failure carries only the IndexError message. -/
theorem Arr2.get_ne (a : Arr2) (y x : ℤ) (m : String)
    (hm : m ≠ "index out of bounds") : a.get y x ≠ Except.error m := by
  unfold Arr2.get npIdx
  split
  · rw [except_ok_bind]
    split
    · rw [except_ok_bind]; simp [except_pure_eq]
    · split
      · rw [except_ok_bind]; simp [except_pure_eq]
      · rw [except_error_bind]; simp [Ne.symm hm]
  · split
    · rw [except_ok_bind]
      split
      · rw [except_ok_bind]; simp [except_pure_eq]
      · split
        · rw [except_ok_bind]; simp [except_pure_eq]
        · rw [except_error_bind]; simp [Ne.symm hm]
    · rw [except_error_bind]; simp [Ne.symm hm]

/-- C2 (amended): with valid arguments (witnessed by a successful
prelude) and the sixteen checked positions in bounds, `centroid_epsf`
raises the bad-pixel failure exactly when one of the SIXTEEN values at
`{center, center+shift, center+shift−1, center+shift+1} ×
{center, center+shift, center+shift−1, center+shift+1}` of the
zero-filled array is non-finite: the cross product of the per-axis
sample lists, which includes nine positions off both center lines and
omits every sample at `center − shift` used by the negative-side psi
and derivative computations. -/
theorem centroid_epsf_check_characterization (data : Arr2) (mask : Option Arr2)
    (ov : ScalarOrList ℚ) (sv : ℚ) (p : EpsfPre) (s : ℤ)
    (hp : epsfPrelude data mask ov sv = Except.ok p)
    (hs : s = npAround (sv * p.ovx))
    (xs ys : List ℤ)
    (hxs : xs = [(p.xidx0 : ℤ), p.xidx0 + s, p.xidx0 + s - 1, p.xidx0 + s + 1])
    (hys : ys = [(p.yidx0 : ℤ), p.yidx0 + s, p.yidx0 + s - 1, p.yidx0 + s + 1])
    (hxb : ∀ x ∈ xs, 0 ≤ x ∧ x < (p.arr.nx : ℤ))
    (hyb : ∀ y ∈ ys, 0 ≤ y ∧ y < (p.arr.ny : ℤ)) :
    (centroid_epsf data mask ov sv = Except.error
        "One or more centroiding pixels is set to a bad value, e.g., NaN or inf.") ↔
      ∃ x ∈ xs, ∃ y ∈ ys, (p.arr.at y.toNat x.toNat).isfinite = false := by
  unfold centroid_epsf
  rw [hp, except_ok_bind, ← hs]
  simp only [epsfCore]
  rw [show [(p.xidx0 : ℤ), p.xidx0 + s, p.xidx0 + s - 1, p.xidx0 + s + 1] = xs
      from hxs.symm,
    show [(p.yidx0 : ℤ), p.yidx0 + s, p.yidx0 + s - 1, p.yidx0 + s + 1] = ys
      from hys.symm]
  rw [mapM_ok_of_all xs _
    (fun x => ys.map fun y => p.arr.at y.toNat x.toNat)
    (fun x hx =>
      mapM_ok_of_all ys _ _ (fun y hy =>
        Arr2.get_inbounds _ _ _ (hyb y hy).1 (hyb y hy).2
          (hxb x hx).1 (hxb x hx).2)), except_ok_bind]
  by_cases hc :
      ((List.map (fun x => List.map (fun y => p.arr.at y.toNat x.toNat) ys)
        xs).flatten.any fun v => !v.isfinite) = true
  · rw [if_pos hc]
    refine iff_of_true ?_ ?_
    · rw [except_throw_eq, except_error_bind]
    · simp only [List.any_eq_true, List.mem_flatten, List.mem_map,
        Bool.not_eq_true'] at hc
      obtain ⟨v, ⟨l, ⟨x, hx, hl⟩, hv⟩, hfin⟩ := hc
      subst hl
      obtain ⟨y, hy, hv⟩ := List.mem_map.mp hv
      exact ⟨x, hx, y, hy, by rw [hv]; exact hfin⟩
  · rw [if_neg hc]
    refine iff_of_false ?_ ?_
    · rw [except_pure_eq, except_ok_bind]
      have hbad : "One or more centroiding pixels is set to a bad value, e.g., NaN or inf." ≠
          "index out of bounds" := by decide
      repeat
        first
        | (apply bind_ne_error _ _ _ (Arr2.get_ne _ _ _ _ hbad); intro _)
        | (rw [except_pure_eq]; simp)
    · intro hcon
      apply hc
      simp only [List.any_eq_true, List.mem_flatten, List.mem_map,
        Bool.not_eq_true']
      obtain ⟨x, hx, y, hy, hfin⟩ := hcon
      exact ⟨p.arr.at y.toNat x.toNat,
        ⟨List.map (fun y => p.arr.at y.toNat x.toNat) ys, ⟨x, hx, rfl⟩,
          List.mem_map.mpr ⟨y, hy, rfl⟩⟩, hfin⟩

/-- A 5×5 all-ones array with a NaN at row 2, column 1: the pixel at
`center − shift` on the x axis when `shift_idx = 1`. -/
def c2Arr : Arr2 := ⟨5, 5, (List.replicate 25 (PVal.fin 1)).set 11 PVal.nan⟩

set_option maxHeartbeats 1000000 in
/-- C2 counterexample: `c2Arr` has a non-finite value at the
`center − shift_idx` x-axis sample (row 2, column 1), one of the values
used for the psi/derivative computations, yet
`centroid_epsf(c2Arr, oversampling=2, shift_val=0.5)` succeeds instead
of raising: the finiteness check never looks at the negative-shift
side. -/
theorem centroid_epsf_missing_check_counterexample :
    c2Arr.at 2 1 = PVal.nan ∧
    (centroid_epsf c2Arr none (ScalarOrList.scalar 2) (1 / 2)).isOk = true := by
  constructor
  · norm_num [c2Arr, Arr2.at, List.get?_eq_getElem?, List.getElem?_set,
      List.getElem?_replicate]
  · have hpre : epsfPrelude c2Arr none (ScalarOrList.scalar 2) (1 / 2) =
        Except.ok ⟨c2Arr, 2, 2, 1, 1, 2, 2⟩ := by
      norm_num [epsfPrelude, broadcastOversampling, ScalarOrList.atleast1d,
        epsfFilled, c2Arr, EpsfPre.mk.injEq]
    have hsh : npAround (1 / 2 * (2 : ℚ)) = 1 := by
      norm_num [npAround]
    unfold centroid_epsf
    rw [hpre, except_ok_bind]
    rw [show ((⟨c2Arr, 2, 2, 1, 1, 2, 2⟩ : EpsfPre).ovx) = (2 : ℚ) from rfl,
      hsh]
    have hg22 : c2Arr.get 2 2 = Except.ok (PVal.fin 1) := by
      simp [c2Arr, Arr2.get, Arr2.at, npIdx, List.get?_eq_getElem?,
        List.getElem?_set, List.getElem?_replicate, except_pure_eq,
        except_ok_bind]
    have hg23 : c2Arr.get 2 3 = Except.ok (PVal.fin 1) := by
      simp [c2Arr, Arr2.get, Arr2.at, npIdx, List.get?_eq_getElem?,
        List.getElem?_set, List.getElem?_replicate, except_pure_eq,
        except_ok_bind]
    have hg24 : c2Arr.get 2 4 = Except.ok (PVal.fin 1) := by
      simp [c2Arr, Arr2.get, Arr2.at, npIdx, List.get?_eq_getElem?,
        List.getElem?_set, List.getElem?_replicate, except_pure_eq,
        except_ok_bind]
    have hg32 : c2Arr.get 3 2 = Except.ok (PVal.fin 1) := by
      simp [c2Arr, Arr2.get, Arr2.at, npIdx, List.get?_eq_getElem?,
        List.getElem?_set, List.getElem?_replicate, except_pure_eq,
        except_ok_bind]
    have hg33 : c2Arr.get 3 3 = Except.ok (PVal.fin 1) := by
      simp [c2Arr, Arr2.get, Arr2.at, npIdx, List.get?_eq_getElem?,
        List.getElem?_set, List.getElem?_replicate, except_pure_eq,
        except_ok_bind]
    have hg34 : c2Arr.get 3 4 = Except.ok (PVal.fin 1) := by
      simp [c2Arr, Arr2.get, Arr2.at, npIdx, List.get?_eq_getElem?,
        List.getElem?_set, List.getElem?_replicate, except_pure_eq,
        except_ok_bind]
    have hg42 : c2Arr.get 4 2 = Except.ok (PVal.fin 1) := by
      simp [c2Arr, Arr2.get, Arr2.at, npIdx, List.get?_eq_getElem?,
        List.getElem?_set, List.getElem?_replicate, except_pure_eq,
        except_ok_bind]
    have hg43 : c2Arr.get 4 3 = Except.ok (PVal.fin 1) := by
      simp [c2Arr, Arr2.get, Arr2.at, npIdx, List.get?_eq_getElem?,
        List.getElem?_set, List.getElem?_replicate, except_pure_eq,
        except_ok_bind]
    have hg44 : c2Arr.get 4 4 = Except.ok (PVal.fin 1) := by
      simp [c2Arr, Arr2.get, Arr2.at, npIdx, List.get?_eq_getElem?,
        List.getElem?_set, List.getElem?_replicate, except_pure_eq,
        except_ok_bind]
    have hg21 : c2Arr.get 2 1 = Except.ok (PVal.nan) := by
      simp [c2Arr, Arr2.get, Arr2.at, npIdx, List.get?_eq_getElem?,
        List.getElem?_set, List.getElem?_replicate, except_pure_eq,
        except_ok_bind]
    have hg20 : c2Arr.get 2 0 = Except.ok (PVal.fin 1) := by
      simp [c2Arr, Arr2.get, Arr2.at, npIdx, List.get?_eq_getElem?,
        List.getElem?_set, List.getElem?_replicate, except_pure_eq,
        except_ok_bind]
    have hg12 : c2Arr.get 1 2 = Except.ok (PVal.fin 1) := by
      simp [c2Arr, Arr2.get, Arr2.at, npIdx, List.get?_eq_getElem?,
        List.getElem?_set, List.getElem?_replicate, except_pure_eq,
        except_ok_bind]
    have hg02 : c2Arr.get 0 2 = Except.ok (PVal.fin 1) := by
      simp [c2Arr, Arr2.get, Arr2.at, npIdx, List.get?_eq_getElem?,
        List.getElem?_set, List.getElem?_replicate, except_pure_eq,
        except_ok_bind]
    simp [epsfCore, hg22, hg23, hg24, hg32, hg33, hg34, hg42, hg43, hg44, hg21, hg20, hg12, hg02, List.mapM_cons, List.mapM_nil,
      except_pure_eq, except_ok_bind, except_throw_eq, PVal.isfinite_fin,
      PVal.isfinite_nan, Except.isOk, Except.toBool]
    rfl

/-- C2 witness: the amended characterization instantiated on a 5×5
all-ones array with oversampling 2 and `shift_val = 1/2`. -/
theorem centroid_epsf_check_characterization_witness :
    (centroid_epsf ⟨5, 5, List.replicate 25 (PVal.fin 1)⟩ none
        (ScalarOrList.scalar 2) (1 / 2) = Except.error
        "One or more centroiding pixels is set to a bad value, e.g., NaN or inf.") ↔
      ∃ x ∈ ([2, 3, 2, 4] : List ℤ), ∃ y ∈ ([2, 3, 2, 4] : List ℤ),
        ((⟨5, 5, List.replicate 25 (PVal.fin 1)⟩ : Arr2).at
          y.toNat x.toNat).isfinite = false :=
  centroid_epsf_check_characterization _ none (ScalarOrList.scalar 2) (1 / 2)
    ⟨⟨5, 5, List.replicate 25 (PVal.fin 1)⟩, 2, 2, 1, 1, 2, 2⟩ 1
    (by norm_num [epsfPrelude, broadcastOversampling, ScalarOrList.atleast1d,
      epsfFilled, EpsfPre.mk.injEq])
    (by norm_num [npAround]) _ _ (by norm_num) (by norm_num)
    (by decide) (by decide)

/-- The center indices handed on by a successful `centroid_epsf`
prelude are the truncations `(size - 1) / 2` on each axis. -/
theorem epsfPrelude_centers (data : Arr2) (mask : Option Arr2)
    (ov : ScalarOrList ℚ) (sv : ℚ) (p : EpsfPre)
    (hp : epsfPrelude data mask ov sv = Except.ok p) :
    p.xidx0 = (data.nx - 1) / 2 ∧ p.yidx0 = (data.ny - 1) / 2 := by
  simp only [epsfPrelude] at hp
  split at hp
  · exact absurd hp (by simp)
  · split at hp
    · exact absurd hp (by simp)
    · split at hp
      · exact absurd hp (by simp)
      · split at hp
        · split at hp
          · cases hp
            exact ⟨rfl, rfl⟩
          · exact absurd hp (by simp)
        · exact absurd hp (by simp)

/-- C10: `centroid_epsf` never checks that its input is odd-sized: on a
`2a × 2b` array whose sixteen checked sample pixels are finite (and with
all sample positions in bounds), the call returns a result without
raising, silently using `(size - 1) / 2 = a - 1` (resp. `b - 1`) — the
lower of the two middle indices — as the center index on each axis. -/
theorem centroid_epsf_even_size_lower_middle (data : Arr2) (mask : Option Arr2)
    (ov : ScalarOrList ℚ) (sv : ℚ) (p : EpsfPre) (s : ℤ) (a b : ℕ)
    (hnx : data.nx = 2 * a) (hny : data.ny = 2 * b)
    (hp : epsfPrelude data mask ov sv = Except.ok p)
    (hs : s = npAround (sv * p.ovx))
    (xs ys : List ℤ)
    (hxs : xs = [(p.xidx0 : ℤ), p.xidx0 + s, p.xidx0 + s - 1,
      p.xidx0 + s + 1, p.xidx0 - s, p.xidx0 - s - 1, p.xidx0 - s + 1])
    (hys : ys = [(p.yidx0 : ℤ), p.yidx0 + s, p.yidx0 + s - 1,
      p.yidx0 + s + 1, p.yidx0 - s, p.yidx0 - s - 1, p.yidx0 - s + 1])
    (hxb : ∀ x ∈ xs, 0 ≤ x ∧ x < (p.arr.nx : ℤ))
    (hyb : ∀ y ∈ ys, 0 ≤ y ∧ y < (p.arr.ny : ℤ))
    (hfin : ∀ x ∈ xs.take 4, ∀ y ∈ ys.take 4,
      (p.arr.at y.toNat x.toNat).isfinite = true) :
    p.xidx0 = a - 1 ∧ p.yidx0 = b - 1 ∧
      ∃ r, centroid_epsf data mask ov sv = Except.ok r := by
  obtain ⟨hcx, hcy⟩ := epsfPrelude_centers data mask ov sv p hp
  refine ⟨by rw [hcx, hnx]; omega, by rw [hcy, hny]; omega, ?_⟩
  have hax0 := hxb (p.xidx0 : ℤ) (by rw [hxs]; simp)
  have haxp := hxb ((p.xidx0 : ℤ) + s) (by rw [hxs]; simp)
  have haxpm := hxb ((p.xidx0 : ℤ) + s - 1) (by rw [hxs]; simp)
  have haxpp := hxb ((p.xidx0 : ℤ) + s + 1) (by rw [hxs]; simp)
  have haxn := hxb ((p.xidx0 : ℤ) - s) (by rw [hxs]; simp)
  have haxnm := hxb ((p.xidx0 : ℤ) - s - 1) (by rw [hxs]; simp)
  have haxnp := hxb ((p.xidx0 : ℤ) - s + 1) (by rw [hxs]; simp)
  have hay0 := hyb (p.yidx0 : ℤ) (by rw [hys]; simp)
  have hayp := hyb ((p.yidx0 : ℤ) + s) (by rw [hys]; simp)
  have haypm := hyb ((p.yidx0 : ℤ) + s - 1) (by rw [hys]; simp)
  have haypp := hyb ((p.yidx0 : ℤ) + s + 1) (by rw [hys]; simp)
  have hayn := hyb ((p.yidx0 : ℤ) - s) (by rw [hys]; simp)
  have haynm := hyb ((p.yidx0 : ℤ) - s - 1) (by rw [hys]; simp)
  have haynp := hyb ((p.yidx0 : ℤ) - s + 1) (by rw [hys]; simp)
  unfold centroid_epsf
  rw [hp, except_ok_bind, ← hs]
  simp only [epsfCore]
  rw [show [(p.xidx0 : ℤ), p.xidx0 + s, p.xidx0 + s - 1, p.xidx0 + s + 1] =
      xs.take 4 from by rw [hxs]; rfl,
    show [(p.yidx0 : ℤ), p.yidx0 + s, p.yidx0 + s - 1, p.yidx0 + s + 1] =
      ys.take 4 from by rw [hys]; rfl]
  rw [mapM_ok_of_all (xs.take 4) _
      (fun x => (ys.take 4).map fun y => p.arr.at y.toNat x.toNat)
      (fun x hx =>
        mapM_ok_of_all _ _ _ (fun y hy =>
          Arr2.get_inbounds _ _ _
            (hyb y (List.take_subset _ _ hy)).1
            (hyb y (List.take_subset _ _ hy)).2
            (hxb x (List.take_subset _ _ hx)).1
            (hxb x (List.take_subset _ _ hx)).2)),
    except_ok_bind]
  rw [if_neg (show ¬_ from fun hc => by
    simp only [List.any_eq_true, List.mem_flatten, List.mem_map,
      Bool.not_eq_true'] at hc
    obtain ⟨v, ⟨l, ⟨x, hx, hl⟩, hv⟩, hfe⟩ := hc
    subst hl
    obtain ⟨y, hy, hvy⟩ := List.mem_map.mp hv
    rw [← hvy] at hfe
    exact absurd (hfin x hx y hy) (by rw [hfe]; exact Bool.false_ne_true))]
  rw [except_pure_eq, except_ok_bind]
  rw [Arr2.get_inbounds _ _ _ hay0.1 hay0.2 haxp.1 haxp.2, except_ok_bind]
  rw [Arr2.get_inbounds _ _ _ hay0.1 hay0.2 haxpm.1 haxpm.2, except_ok_bind]
  rw [Arr2.get_inbounds _ _ _ hay0.1 hay0.2 haxpp.1 haxpp.2, except_ok_bind]
  rw [Arr2.get_inbounds _ _ _ hay0.1 hay0.2 haxn.1 haxn.2, except_ok_bind]
  rw [Arr2.get_inbounds _ _ _ hay0.1 hay0.2 haxnm.1 haxnm.2, except_ok_bind]
  rw [Arr2.get_inbounds _ _ _ hay0.1 hay0.2 haxnp.1 haxnp.2, except_ok_bind]
  rw [Arr2.get_inbounds _ _ _ hayp.1 hayp.2 hax0.1 hax0.2, except_ok_bind]
  rw [Arr2.get_inbounds _ _ _ haypm.1 haypm.2 hax0.1 hax0.2, except_ok_bind]
  rw [Arr2.get_inbounds _ _ _ haypp.1 haypp.2 hax0.1 hax0.2, except_ok_bind]
  rw [Arr2.get_inbounds _ _ _ hayn.1 hayn.2 hax0.1 hax0.2, except_ok_bind]
  rw [Arr2.get_inbounds _ _ _ haynm.1 haynm.2 hax0.1 hax0.2, except_ok_bind]
  rw [Arr2.get_inbounds _ _ _ haynp.1 haynp.2 hax0.1 hax0.2, except_ok_bind]
  exact ⟨_, rfl⟩

/-- C10 witness: a 6×6 all-ones array with oversampling 2 and
`shift_val = 1/2` returns a result, with center index 2 = 6/2 − 1 on
both axes. -/
theorem centroid_epsf_even_size_lower_middle_witness :
    (2 : ℕ) = 3 - 1 ∧ (2 : ℕ) = 3 - 1 ∧
    ∃ r, centroid_epsf ⟨6, 6, List.replicate 36 (PVal.fin 1)⟩ none
      (ScalarOrList.scalar 2) (1 / 2) = Except.ok r :=
  centroid_epsf_even_size_lower_middle _ none (ScalarOrList.scalar 2) (1 / 2)
    ⟨⟨6, 6, List.replicate 36 (PVal.fin 1)⟩, 2, 2, 1, 1, 2, 2⟩ 1 3 3
    rfl rfl
    (by norm_num [epsfPrelude, broadcastOversampling, ScalarOrList.atleast1d,
      epsfFilled, EpsfPre.mk.injEq])
    (by norm_num [npAround]) _ _ rfl rfl
    (by decide) (by decide) (by decide)

/-- A 2-D boolean mask array. -/
structure Mask2 where
  ny : ℕ
  nx : ℕ
  cells : List Bool
  deriving DecidableEq, Repr

/-- The shape estimate consumed from the external `data_properties`
collaborator. -/
structure ShapeProps where
  xcentroid : ℚ
  ycentroid : ℚ
  semimajorSigma : ℚ
  semiminorSigma : ℚ
  orientation : ℚ
  deriving DecidableEq, Repr

/-- The parameters of the `GaussianConst2D` composite model (a constant
plus a rotated 2-D Gaussian). -/
structure GaussianConst2DParams where
  constant : ℚ
  amplitude : ℚ
  xMean : ℚ
  yMean : ℚ
  xStddev : ℚ
  yStddev : ℚ
  theta : ℚ
  deriving DecidableEq, Repr

/-- `error.clip(min=m)`. -/
def PVal.clipMin (v : PVal) (m : ℚ) : PVal :=
  match v with
  | .fin q => .fin (max q m)
  | .nan => .nan

/-- Union of an optional mask with a second mask (`data.mask |= other`
on a masked array whose mask may still be `nomask`). -/
def orMasks (a : Option (List Bool)) (b : List Bool) : List Bool :=
  match a with
  | none => b
  | some l => (l.zip b).map fun p => p.1 || p.2

/-- The number of unmasked entries, `np.ma.count`. -/
def countFalse (l : List Bool) : ℕ := (l.filter (fun b => !b)).length

/-- `fit_2dgaussian(data, error=None, mask=None)` from
`photutils/centroids/core.py`, with the external collaborators as
parameters: `props` is the `data_properties` shape estimator and
`fitter` is the Levenberg–Marquardt fit
`fitter(g_init, x, y, data, weights)`, both consumed as pure
capabilities. -/
def fit_2dgaussian (data : Arr2) (error : Option Arr2) (mask : Option Mask2)
    (props : Arr2 → List Bool → ShapeProps)
    (fitter : GaussianConst2DParams → Arr2 → List PVal →
      GaussianConst2DParams) :
    Except String GaussianConst2DParams :=
  -- data = np.ma.asanyarray(data): a plain input starts with no mask;
  -- then data.mask |= mask after the shape check
  match (match mask with
    | none => Except.ok (none : Option (List Bool))
    | some m =>
        if (data.ny, data.nx) ≠ (m.ny, m.nx) then
          Except.error "data and mask must have the same shape."
        else Except.ok (some (orMasks none m.cells))) with
  | Except.error e => Except.error e
  | Except.ok dmask =>
    -- data = np.ma.masked_invalid(data) when non-finite values are
    -- present (with a non-fatal warning)
    let dmask := if data.cells.any (fun v => !v.isfinite) then
        some (orMasks dmask (data.cells.map fun v => !v.isfinite))
      else dmask
    -- error = np.ma.masked_invalid(error); shape check;
    -- data.mask |= error.mask; weights = 1.0 / error.clip(min=1e-30)
    match ((match error with
      | none =>
          Except.ok (dmask, List.replicate data.cells.length (PVal.fin 1))
      | some e =>
          if (data.ny, data.nx) ≠ (e.ny, e.nx) then
            Except.error "data and error must have the same shape."
          else
            Except.ok (some (orMasks dmask (e.cells.map fun v => !v.isfinite)),
              e.cells.map fun v =>
                (PVal.fin 1).div (v.clipMin (1 / 10 ^ 30)))) :
        Except String (Option (List Bool) × List PVal)) with
    | Except.error e => Except.error e
    | Except.ok (dmask, weights) =>
      -- if np.ma.count(data) < 7: raise ValueError(...)
      if (match dmask with
          | none => data.cells.length
          | some dm => countFalse dm) < 7 then
        Except.error "Input data must have a least 7 unmasked values to fit a 2D Gaussian plus a constant."
      else
        -- weights[data.mask] = 0.; mask = data.mask; data = data.filled(0)
        let weights := match dmask with
          | none => weights
          | some dm => (weights.zip dm).map fun p =>
              if p.2 then PVal.fin 0 else p.1
        let fmask : List Bool := match dmask with
          | none => List.replicate data.cells.length false
          | some dm => dm
        let filled : List PVal := match dmask with
          | none => data.cells
          | some dm => (data.cells.zip dm).map fun p =>
              if p.2 then PVal.fin 0 else p.1
        -- props = data_properties(data - np.min(data), mask=mask)
        let dmin : ℚ := match filled.map PVal.fillNonfinite with
          | [] => 0
          | q :: rest => rest.foldl min q
        let shifted : Arr2 := ⟨data.ny, data.nx,
          filled.map fun v => v.sub (PVal.fin dmin)⟩
        let p := props shifted fmask
        -- initial guesses and the final fit
        let gInit : GaussianConst2DParams :=
          ⟨0, ptpQ (filled.map PVal.fillNonfinite), p.xcentroid, p.ycentroid,
            p.semimajorSigma, p.semiminorSigma, p.orientation⟩
        Except.ok (fitter gInit ⟨data.ny, data.nx, filled⟩ weights)

/-- The union mask of C4's wording — input mask ∪ non-finite(data) ∪
non-finite(error) — as a flat boolean list. -/
def unionMask (data : Arr2) (error : Option Arr2) (mask : Option Mask2) :
    List Bool :=
  let nf := data.cells.map fun v => !v.isfinite
  let m1 := match mask with
    | none => nf
    | some m => (m.cells.zip nf).map fun p => p.1 || p.2
  match error with
  | none => m1
  | some e => (m1.zip (e.cells.map fun v => !v.isfinite)).map fun p =>
      p.1 || p.2

/-- Every mapped entry is false when `any` fails. -/
theorem allfalse_of_any_eq_false {α : Type} (l : List α) (p : α → Bool)
    (h : l.any p = false) : ∀ b ∈ l.map p, b = false := by
  intro b hb
  obtain ⟨a, ha, rfl⟩ := List.mem_map.mp hb
  exact Bool.not_eq_true _ ▸ Bool.of_not_eq_true ((List.any_eq_false.mp h) a ha)

/-- Union with an all-false mask on the right is the identity. -/
theorem zip_or_allfalse_right (m nf : List Bool)
    (h : ∀ b ∈ nf, b = false) (hl : m.length = nf.length) :
    (m.zip nf).map (fun p => p.1 || p.2) = m := by
  induction m generalizing nf with
  | nil => simp
  | cons a t ih =>
      cases nf with
      | nil => simp at hl
      | cons b nb =>
          have hb := h b (by simp)
          subst hb
          simp only [List.zip_cons_cons, List.map_cons, Bool.or_false,
            List.cons.injEq, true_and]
          exact ih nb (fun x hx => h x (List.mem_cons_of_mem _ hx))
            (by simpa using hl)

/-- Union with an all-false mask on the left is the other mask. -/
theorem zip_or_allfalse_left (nf em : List Bool)
    (h : ∀ b ∈ nf, b = false) (hl : nf.length = em.length) :
    (nf.zip em).map (fun p => p.1 || p.2) = em := by
  induction nf generalizing em with
  | nil => cases em with
      | nil => simp
      | cons b eb => simp at hl
  | cons a t ih =>
      cases em with
      | nil => simp at hl
      | cons b eb =>
          have ha := h a (by simp)
          subst ha
          simp only [List.zip_cons_cons, List.map_cons, Bool.false_or,
            List.cons.injEq, true_and]
          exact ih eb (fun x hx => h x (List.mem_cons_of_mem _ hx))
            (by simpa using hl)

/-- An all-false mask leaves every entry unmasked. -/
theorem countFalse_allfalse (nf : List Bool) (h : ∀ b ∈ nf, b = false) :
    countFalse nf = nf.length := by
  unfold countFalse
  rw [List.filter_length_eq_length.mpr (by intro a ha; simp [h a ha])]

/-- C4: whenever the union mask (input mask ∪ non-finite(data) ∪
non-finite(error)) leaves fewer than 7 unmasked samples,
`fit_2dgaussian` raises the invalid-argument failure — for every shape
estimator and every fitter, i.e. before any fitting is attempted. -/
theorem fit_2dgaussian_min_unmasked (data : Arr2) (error : Option Arr2)
    (mask : Option Mask2)
    (props : Arr2 → List Bool → ShapeProps)
    (fitter : GaussianConst2DParams → Arr2 → List PVal →
      GaussianConst2DParams)
    (hm : ∀ m, mask = some m →
      (data.ny, data.nx) = (m.ny, m.nx) ∧
        m.cells.length = data.cells.length)
    (he : ∀ e, error = some e →
      (data.ny, data.nx) = (e.ny, e.nx) ∧
        e.cells.length = data.cells.length)
    (hcnt : countFalse (unionMask data error mask) < 7) :
    fit_2dgaussian data error mask props fitter = Except.error
      "Input data must have a least 7 unmasked values to fit a 2D Gaussian plus a constant." := by
  unfold fit_2dgaussian
  cases mask with
  | none =>
      cases error with
      | none =>
          simp only [unionMask] at hcnt
          by_cases hnf : (data.cells.any fun v => !v.isfinite) = true
          · simp only [hnf, if_true, ite_true, orMasks]
            rw [if_pos hcnt]
          · rw [Bool.not_eq_true] at hnf
            simp only [hnf, Bool.false_eq_true, if_false, ite_false, orMasks]
            rw [countFalse_allfalse _
              (allfalse_of_any_eq_false _ _ hnf)] at hcnt
            rw [if_pos (by simpa using hcnt)]
      | some e =>
          obtain ⟨hesh, helen⟩ := he e rfl
          have hene : ¬(data.ny, data.nx) ≠ (e.ny, e.nx) := by simp [hesh]
          simp only [unionMask] at hcnt
          by_cases hnf : (data.cells.any fun v => !v.isfinite) = true
          · simp only [hnf, if_true, ite_true, orMasks, if_neg hene]
            rw [if_pos hcnt]
          · rw [Bool.not_eq_true] at hnf
            simp only [hnf, Bool.false_eq_true, if_false, ite_false, orMasks,
              if_neg hene]
            rw [zip_or_allfalse_left _ _
              (allfalse_of_any_eq_false _ _ hnf) (by simp [helen])] at hcnt
            rw [if_pos hcnt]
  | some m =>
      obtain ⟨hmsh, hmlen⟩ := hm m rfl
      have hmne : ¬(data.ny, data.nx) ≠ (m.ny, m.nx) := by simp [hmsh]
      cases error with
      | none =>
          simp only [unionMask] at hcnt
          by_cases hnf : (data.cells.any fun v => !v.isfinite) = true
          · simp only [hnf, if_true, ite_true, orMasks, if_neg hmne]
            rw [if_pos hcnt]
          · rw [Bool.not_eq_true] at hnf
            simp only [hnf, Bool.false_eq_true, if_false, ite_false, orMasks,
              if_neg hmne]
            rw [zip_or_allfalse_right _ _
              (allfalse_of_any_eq_false _ _ hnf)
              (by simp [hmlen])] at hcnt
            rw [if_pos hcnt]
      | some e =>
          obtain ⟨hesh, helen⟩ := he e rfl
          have hene : ¬(data.ny, data.nx) ≠ (e.ny, e.nx) := by simp [hesh]
          simp only [unionMask] at hcnt
          by_cases hnf : (data.cells.any fun v => !v.isfinite) = true
          · simp only [hnf, if_true, ite_true, orMasks, if_neg hmne,
              if_neg hene]
            rw [if_pos hcnt]
          · rw [Bool.not_eq_true] at hnf
            simp only [hnf, Bool.false_eq_true, if_false, ite_false, orMasks,
              if_neg hmne, if_neg hene]
            rw [zip_or_allfalse_right _ _
              (allfalse_of_any_eq_false _ _ hnf)
              (by simp [hmlen])] at hcnt
            rw [if_pos hcnt]

/-- C4 witness: an all-ones 2×2 array (4 samples < 7) raises the
failure, whatever the collaborators would do. -/
theorem fit_2dgaussian_min_unmasked_witness :
    fit_2dgaussian ⟨2, 2, List.replicate 4 (PVal.fin 1)⟩ none none
      (fun _ _ => ⟨0, 0, 1, 1, 0⟩) (fun g _ _ => g) = Except.error
      "Input data must have a least 7 unmasked values to fit a 2D Gaussian plus a constant." :=
  fit_2dgaussian_min_unmasked _ none none _ _ (by simp) (by simp)
    (by decide)

/-- A position argument: scalar, 1-D or 2-D (what `np.atleast_1d` can
distinguish here). -/
inductive NDSeq where
  | scalar (q : ℚ)
  | oneD (xs : List ℚ)
  | twoD (xss : List (List ℚ))
  deriving DecidableEq, Repr

/-- `np.atleast_1d` on a position argument. -/
def NDSeq.atleast1d : NDSeq → NDSeq
  | scalar q => oneD [q]
  | x => x

def NDSeq.ndim : NDSeq → ℕ
  | scalar _ => 0
  | oneD _ => 1
  | twoD _ => 2

/-- The `box_size` argument: a scalar or a 1-D sequence of sizes. -/
inductive BoxArg where
  | scalar (n : ℕ)
  | arr (ns : List ℕ)
  deriving DecidableEq, Repr

/-- An n-D boolean array (for the `footprint` argument, whose
dimensionality is checked). -/
structure NDB where
  shape : List ℕ
  cells : List Bool
  deriving DecidableEq, Repr

/-- A slice with a start and a stop. -/
structure Slice where
  start : ℕ
  stop : ℕ
  deriving DecidableEq, Repr

/-- The overlap/slicing collaborator `overlap_slices(large_shape,
small_shape, position) -> (slices_large, slices_small)`, consumed as an
opaque capability; each slice pair is in `(y, x)` order. -/
def OverlapFn : Type :=
  (ℕ × ℕ) → (ℕ × ℕ) → (ℚ × ℚ) → (Slice × Slice) × (Slice × Slice)

/-- The centroiding-callable capability: whether its signature declares
`mask` and `error` parameters, and the function itself, which receives
the data cutout, the combined mask and (when passed) the error cutout
and returns an `(x, y)` pair. -/
structure CentroidFunc where
  hasMask : Bool
  hasError : Bool
  run : Arr2 → Mask2 → Option Arr2 → ℚ × ℚ

/-- The indices a Python slice selects from an axis of length `n`. -/
def sliceIdx (n : ℕ) (s : Slice) : List ℕ :=
  (List.range n).filter fun i => s.start ≤ i ∧ i < s.stop

/-- `data[slices]`: a rectangular cutout (a view in numpy; only read
here). -/
def Arr2.slice2 (a : Arr2) (sy sx : Slice) : Arr2 :=
  ⟨(sliceIdx a.ny sy).length, (sliceIdx a.nx sx).length,
    (sliceIdx a.ny sy).flatMap fun r =>
      (sliceIdx a.nx sx).map fun c => a.at r c⟩

/-- Total cell accessor of a boolean mask grid. -/
def Mask2.at (m : Mask2) (y x : ℕ) : Bool :=
  (m.cells.get? (y * m.nx + x)).getD false

/-- `mask[slices]`. -/
def Mask2.slice2 (m : Mask2) (sy sx : Slice) : Mask2 :=
  ⟨(sliceIdx m.ny sy).length, (sliceIdx m.nx sx).length,
    (sliceIdx m.ny sy).flatMap fun r =>
      (sliceIdx m.nx sx).map fun c => m.at r c⟩

/-- `~footprint`. -/
def Mask2.neg (m : Mask2) : Mask2 := ⟨m.ny, m.nx, m.cells.map (!·)⟩

/-- `np.logical_or` of two same-shaped masks. -/
def Mask2.orWith (a b : Mask2) : Mask2 :=
  ⟨a.ny, a.nx, (a.cells.zip b.cells).map fun p => p.1 || p.2⟩

/-- Resolution of `box_size`/`footprint` into the effective footprint
(lines 441–455 of the source): `footprint` wins when given and must be
2-D; otherwise `box_size` is broadcast to two elements and an all-true
footprint of that shape is built. -/
def resolveFootprint (box_size : Option BoxArg) (footprint : Option NDB) :
    Except String Mask2 :=
  match footprint with
  | none =>
      match box_size with
      | none => Except.error "box_size or footprint must be defined."
      | some b =>
          let bl := match b with
            | BoxArg.scalar n => [n]
            | BoxArg.arr l => l
          let bl := if bl.length = 1 then bl ++ bl else bl
          if bl.length ≠ 2 then
            Except.error "box_size must have 1 or 2 elements."
          else
            Except.ok ⟨bl.getD 0 0, bl.getD 1 0,
              List.replicate (bl.getD 0 0 * bl.getD 1 0) true⟩
  | some f =>
      if f.shape.length ≠ 2 then
        Except.error "footprint must be a 2D array."
      else Except.ok ⟨f.shape.getD 0 0, f.shape.getD 1 0, f.cells⟩

/-- The body of `centroid_sources`' per-position loop (lines 467–494):
cut out the data with the large slice, build the combined mask from the
negated footprint (cropped by the small slice) and the mask cutout,
call the centroiding function — with the error cutout exactly when an
error array is given and the capability declares `error` — and
translate the local result by the large slice's starting offsets
(column start onto x, row start onto y). -/
def sourcesOne (data : Arr2) (fp : Mask2) (error : Option Arr2)
    (mask : Option Mask2) (cfunc : CentroidFunc) (overlap : OverlapFn)
    (xp yp : ℚ) : ℚ × ℚ :=
  let sl := (overlap (data.ny, data.nx) (fp.ny, fp.nx) (yp, xp)).1
  let ss := (overlap (data.ny, data.nx) (fp.ny, fp.nx) (yp, xp)).2
  let dcut := data.slice2 sl.1 sl.2
  let fpmask := (Mask2.neg fp).slice2 ss.1 ss.2
  let mcut := match mask with
    | none => fpmask
    | some mk => (mk.slice2 sl.1 sl.2).orWith fpmask
  let cen := match error, cfunc.hasError with
    | some e, true => cfunc.run dcut mcut (some (e.slice2 sl.1 sl.2))
    | _, _ => cfunc.run dcut mcut none
  (cen.1 + (sl.2.start : ℚ), cen.2 + (sl.1.start : ℚ))

/-- `centroid_sources(data, xpos, ypos, box_size=11, footprint=None,
error=None, mask=None, centroid_func=centroid_com)` from
`photutils/centroids/core.py`, with the overlap collaborator and the
centroiding callable as parameters. -/
def centroid_sources (data : Arr2) (xpos ypos : NDSeq)
    (box_size : Option BoxArg) (footprint : Option NDB)
    (error : Option Arr2) (mask : Option Mask2) (cfunc : CentroidFunc)
    (overlap : OverlapFn) : Except String (List ℚ × List ℚ) :=
  match xpos.atleast1d with
  | NDSeq.oneD xs =>
      match ypos.atleast1d with
      | NDSeq.oneD ys =>
          match resolveFootprint box_size footprint with
          | Except.error e => Except.error e
          | Except.ok fp =>
              if cfunc.hasMask = false then
                Except.error "The input \"centroid_func\" must have a \"mask\" keyword."
              else
                let pairs := (xs.zip ys).map fun p =>
                  sourcesOne data fp error mask cfunc overlap p.1 p.2
                Except.ok (pairs.map Prod.fst, pairs.map Prod.snd)
      | _ => Except.error "ypos must be a 1D array."
  | _ => Except.error "xpos must be a 1D array."

/-- The footprint/box validation failure condition of the source:
`footprint` given but not 2-D, or no footprint and `box_size` missing
or, after scalar promotion and the 1-element repeat, of length other
than 2. -/
def fpCond (box_size : Option BoxArg) (footprint : Option NDB) : Bool :=
  match footprint with
  | some f => decide (f.shape.length ≠ 2)
  | none =>
      match box_size with
      | none => true
      | some b =>
          let bl := match b with
            | BoxArg.scalar n => [n]
            | BoxArg.arr l => l
          let bl := if bl.length = 1 then bl ++ bl else bl
          decide (bl.length ≠ 2)

/-- The exact pre-loop failure condition of `centroid_sources`
(amended C5). -/
def sourcesErrorCond (xpos ypos : NDSeq) (box_size : Option BoxArg)
    (footprint : Option NDB) (cfunc : CentroidFunc) : Bool :=
  decide (xpos.atleast1d.ndim ≠ 1) || decide (ypos.atleast1d.ndim ≠ 1) ||
    fpCond box_size footprint || !cfunc.hasMask

/-- C5's failure condition as the claim words it: `xpos`/`ypos` not 1-D
after scalar promotion; neither `box_size` nor `footprint` given;
`footprint` given but not 2-D; `box_size` with more than 2 elements; or
no `mask` parameter on the callable. -/
def claimC5Cond (xpos ypos : NDSeq) (box_size : Option BoxArg)
    (footprint : Option NDB) (cfunc : CentroidFunc) : Bool :=
  decide (xpos.atleast1d.ndim ≠ 1) || decide (ypos.atleast1d.ndim ≠ 1) ||
    (box_size.isNone && footprint.isNone) ||
    (match footprint with
     | some f => decide (f.shape.length ≠ 2)
     | none => false) ||
    (match box_size with
     | some (BoxArg.scalar _) => false
     | some (BoxArg.arr l) => decide (2 < l.length)
     | none => false) ||
    !cfunc.hasMask

/-- The footprint resolution fails exactly under `fpCond`. -/
theorem resolveFootprint_error_iff (box_size : Option BoxArg)
    (footprint : Option NDB) :
    (∃ e, resolveFootprint box_size footprint = Except.error e) ↔
      fpCond box_size footprint = true := by
  cases footprint with
  | some f =>
      by_cases h : f.shape.length = 2
      · simp [resolveFootprint, fpCond, h]
      · simp [resolveFootprint, fpCond, h]
  | none =>
      cases box_size with
      | none => simp [resolveFootprint, fpCond]
      | some b =>
          rcases b with n | l
          · simp [resolveFootprint, fpCond]
          · by_cases h1 : l.length = 1
            · simp [resolveFootprint, fpCond, h1]
            · by_cases h2 : l.length = 2
              · simp [resolveFootprint, fpCond, h1, h2]
              · simp [resolveFootprint, fpCond, h1, h2]

/-- C5 (amended): `centroid_sources` raises, before processing any
position, exactly when `xpos` or `ypos` is not 1-D after scalar
promotion; `footprint` is given but not 2-D; `footprint` is not given
and `box_size` is missing or has — after scalar promotion and the
1-element repeat — an element count other than 2 (so also for zero
elements, not only for more than two); or the centroiding callable
declares no `mask` parameter. With the overlap collaborator and the
callable modelled as total capabilities, no other call site raises. -/
theorem centroid_sources_error_iff (data : Arr2) (xpos ypos : NDSeq)
    (box_size : Option BoxArg) (footprint : Option NDB)
    (error : Option Arr2) (mask : Option Mask2) (cfunc : CentroidFunc)
    (overlap : OverlapFn) :
    (∃ e, centroid_sources data xpos ypos box_size footprint error mask
      cfunc overlap = Except.error e) ↔
      sourcesErrorCond xpos ypos box_size footprint cfunc = true := by
  have hres := resolveFootprint_error_iff box_size footprint
  simp only [centroid_sources, sourcesErrorCond]
  cases hx : xpos.atleast1d with
  | scalar q => exact absurd hx (by cases xpos <;> simp [NDSeq.atleast1d])
  | twoD xss => simp [NDSeq.ndim]
  | oneD xs =>
      cases hy : ypos.atleast1d with
      | scalar q =>
          exact absurd hy (by cases ypos <;> simp [NDSeq.atleast1d])
      | twoD yss => simp [NDSeq.ndim]
      | oneD ys =>
          simp only [NDSeq.ndim]
          cases hfp : resolveFootprint box_size footprint with
          | error e =>
              have hcondtrue : fpCond box_size footprint = true :=
                hres.mp ⟨e, hfp⟩
              simp [hcondtrue]
          | ok fp =>
              have hfalse : fpCond box_size footprint = false := by
                cases hcond : fpCond box_size footprint
                · rfl
                · obtain ⟨e, he⟩ := hres.mpr hcond
                  rw [he] at hfp
                  exact absurd hfp (by simp)
              cases hcm : cfunc.hasMask
              · simp [hfalse]
              · simp [hfalse]

/-- `get?` at an in-range index yields the `getD` value. -/
theorem get?_eq_some_getD {α : Type} (l : List α) (k : ℕ) (d : α)
    (h : k < l.length) : l.get? k = some (l.getD k d) := by
  rw [List.getD_eq_getElem?_getD, List.get?_eq_getElem?]
  cases hh : l[k]? with
  | none =>
      rw [List.getElem?_eq_none_iff] at hh
      omega
  | some v => simp [hh]

/-- C6: for every valid input, `centroid_sources` returns two lists of
the same length as the position lists, in order, whose k-th entries are
the centroiding function's local result on the k-th cutout translated
by the large slice's column start (x) and row start (y) — the
translation and cutout construction being `sourcesOne`. -/
theorem centroid_sources_translates (data : Arr2) (xs ys : List ℚ)
    (box_size : Option BoxArg) (footprint : Option NDB)
    (error : Option Arr2) (mask : Option Mask2) (cfunc : CentroidFunc)
    (overlap : OverlapFn) (fp : Mask2)
    (hfp : resolveFootprint box_size footprint = Except.ok fp)
    (hcm : cfunc.hasMask = true) (hlen : xs.length = ys.length) :
    ∃ xcs ycs,
      centroid_sources data (NDSeq.oneD xs) (NDSeq.oneD ys) box_size
        footprint error mask cfunc overlap = Except.ok (xcs, ycs) ∧
      xcs.length = xs.length ∧ ycs.length = ys.length ∧
      ∀ k, k < xs.length →
        xcs.get? k = some (sourcesOne data fp error mask cfunc overlap
          (xs.getD k 0) (ys.getD k 0)).1 ∧
        ycs.get? k = some (sourcesOne data fp error mask cfunc overlap
          (xs.getD k 0) (ys.getD k 0)).2 := by
  have hmain : centroid_sources data (NDSeq.oneD xs) (NDSeq.oneD ys)
      box_size footprint error mask cfunc overlap = Except.ok
      (((xs.zip ys).map fun p =>
          sourcesOne data fp error mask cfunc overlap p.1 p.2).map Prod.fst,
        ((xs.zip ys).map fun p =>
          sourcesOne data fp error mask cfunc overlap p.1 p.2).map
            Prod.snd) := by
    simp only [centroid_sources, NDSeq.atleast1d]
    rw [hfp, hcm]
    simp
  refine ⟨_, _, hmain, ?_, ?_, ?_⟩
  · simp [List.length_map, List.length_zip, hlen]
  · simp [List.length_map, List.length_zip, hlen]
  · intro k hk
    constructor
    · rw [List.get?_map, List.get?_map,
        (List.get?_zip_eq_some xs ys (xs.getD k 0, ys.getD k 0) k).mpr
          ⟨get?_eq_some_getD xs k 0 hk,
           get?_eq_some_getD ys k 0 (by omega)⟩]
      rfl
    · rw [List.get?_map, List.get?_map,
        (List.get?_zip_eq_some xs ys (xs.getD k 0, ys.getD k 0) k).mpr
          ⟨get?_eq_some_getD xs k 0 hk,
           get?_eq_some_getD ys k 0 (by omega)⟩]
      rfl

/-- C5 counterexample: an empty `box_size` list triggers a pre-loop
failure although none of the claim's listed conditions holds (it has
zero elements, not more than two, and everything else is valid). -/
theorem centroid_sources_empty_box_counterexample :
    centroid_sources ⟨1, 1, [PVal.fin 0]⟩ (NDSeq.oneD [0]) (NDSeq.oneD [0])
      (some (BoxArg.arr [])) none none none
      ⟨true, false, fun _ _ _ => (0, 0)⟩
      (fun _ _ _ => (⟨⟨0, 1⟩, ⟨0, 1⟩⟩, ⟨⟨0, 1⟩, ⟨0, 1⟩⟩)) =
      Except.error "box_size must have 1 or 2 elements." ∧
    claimC5Cond (NDSeq.oneD [0]) (NDSeq.oneD [0]) (some (BoxArg.arr []))
      none ⟨true, false, fun _ _ _ => (0, 0)⟩ = false :=
  ⟨rfl, rfl⟩

/-- C6 witness: one position on a 2×2 array with a 1×1 box. -/
theorem centroid_sources_translates_witness :
    ∃ xcs ycs,
      centroid_sources ⟨2, 2, [PVal.fin 1, PVal.fin 2, PVal.fin 3, PVal.fin 4]⟩
        (NDSeq.oneD [1]) (NDSeq.oneD [1]) (some (BoxArg.scalar 1)) none
        none none ⟨true, false, fun _ _ _ => (0, 0)⟩
        (fun _ _ _ => (⟨⟨1, 2⟩, ⟨1, 2⟩⟩, ⟨⟨0, 1⟩, ⟨0, 1⟩⟩)) =
        Except.ok (xcs, ycs) ∧
      xcs.length = [(1 : ℚ)].length ∧ ycs.length = [(1 : ℚ)].length ∧
      ∀ k, k < [(1 : ℚ)].length →
        xcs.get? k = some (sourcesOne
          ⟨2, 2, [PVal.fin 1, PVal.fin 2, PVal.fin 3, PVal.fin 4]⟩
          ⟨1, 1, List.replicate 1 true⟩ none none
          ⟨true, false, fun _ _ _ => (0, 0)⟩
          (fun _ _ _ => (⟨⟨1, 2⟩, ⟨1, 2⟩⟩, ⟨⟨0, 1⟩, ⟨0, 1⟩⟩))
          ([(1 : ℚ)].getD k 0) ([(1 : ℚ)].getD k 0)).1 ∧
        ycs.get? k = some (sourcesOne
          ⟨2, 2, [PVal.fin 1, PVal.fin 2, PVal.fin 3, PVal.fin 4]⟩
          ⟨1, 1, List.replicate 1 true⟩ none none
          ⟨true, false, fun _ _ _ => (0, 0)⟩
          (fun _ _ _ => (⟨⟨1, 2⟩, ⟨1, 2⟩⟩, ⟨⟨0, 1⟩, ⟨0, 1⟩⟩))
          ([(1 : ℚ)].getD k 0) ([(1 : ℚ)].getD k 0)).2 :=
  centroid_sources_translates _ [1] [1] (some (BoxArg.scalar 1)) none none
    none _ _ ⟨1, 1, List.replicate 1 true⟩ rfl rfl rfl

/-! ## A store model for the frame property (C9)

Caller-visible ndarray buffers live in a heap (a list of flat cell
buffers); a Python array variable is a reference into it. Each numpy
operation of the source is mirrored by its store effect: `astype` and
the masked-array copies allocate, fancy-index assignment writes in
place through its reference, `np.ma.asanyarray` aliases, elementwise
arithmetic allocates fresh buffers. The result values themselves are
those of the pure embeddings above. -/

/-- The store of ndarray buffers. -/
abbrev Heap : Type := List (List PVal)

/-- Dereference a buffer. -/
def Heap.read (h : Heap) (r : ℕ) : List PVal := (h.get? r).getD []

/-- Allocate a fresh buffer; its reference is the old heap length. -/
def Heap.alloc (h : Heap) (buf : List PVal) : Heap := h ++ [buf]

/-- Overwrite the buffer a reference points to (in-place assignment). -/
def Heap.write (h : Heap) (r : ℕ) (buf : List PVal) : Heap := h.set r buf

/-- The number of buffers. -/
def Heap.size (h : Heap) : ℕ := h.length

/-- The final heap only grew, and every buffer of the original heap is
unchanged: no caller-visible array was mutated. -/
def FramePreserved (h h2 : Heap) : Prop :=
  h.size ≤ h2.size ∧ ∀ r, r < h.size → h2.read r = h.read r

theorem fp_refl (h : Heap) : FramePreserved h h := ⟨le_refl _, fun _ _ => rfl⟩

theorem fp_trans (h h2 h3 : Heap) (h12 : FramePreserved h h2)
    (h23 : FramePreserved h2 h3) : FramePreserved h h3 :=
  ⟨le_trans h12.1 h23.1,
    fun r hr => (h23.2 r (lt_of_lt_of_le hr h12.1)).trans (h12.2 r hr)⟩

theorem fp_alloc (h : Heap) (b : List PVal) :
    FramePreserved h (h.alloc b) := by
  refine ⟨by simp [Heap.alloc, Heap.size], fun r hr => ?_⟩
  unfold Heap.alloc Heap.read
  rw [List.get?_eq_getElem?, List.get?_eq_getElem?,
    List.getElem?_append_left hr]

theorem fp_write_fresh (h : Heap) (h2 : Heap) (r : ℕ) (b : List PVal)
    (hf : FramePreserved h h2) (hr : h.size ≤ r) :
    FramePreserved h (h2.write r b) := by
  refine ⟨le_trans hf.1 (by simp [Heap.write, Heap.size]), fun q hq => ?_⟩
  rw [← hf.2 q hq]
  unfold Heap.write Heap.read
  rw [List.get?_eq_getElem?, List.get?_eq_getElem?,
    List.getElem?_set_ne (by omega)]

/-- A 2-D ndarray handle: its shape and its buffer reference. -/
structure ArrRef where
  ny : ℕ
  nx : ℕ
  ref : ℕ
  deriving DecidableEq, Repr

/-- Read a handle's array out of the store. -/
def Heap.arr (h : Heap) (a : ArrRef) : Arr2 := ⟨a.ny, a.nx, h.read a.ref⟩

/-- Read a handle's buffer as a boolean mask
(`np.asarray(·, dtype=bool)` semantics, a read). -/
def Heap.maskOf (h : Heap) (a : ArrRef) : Mask2 :=
  ⟨a.ny, a.nx, (h.read a.ref).map PVal.truthy⟩

/-- `centroid_com` over the store: the oversampling check reads nothing;
`astype(float)` allocates a copy; the two fancy-index zero-fills write
that copy in place; everything else reads. The value returned is that
of the pure embedding. -/
def centroid_comMem (h : Heap) (shape : List ℕ) (dref : ℕ)
    (mask : Option (List ℕ × ℕ)) (ov : ScalarOrList ℚ) :
    Heap × Except String (List PVal) :=
  let result := centroid_com ⟨shape, h.read dref⟩
    (mask.map fun m => ⟨m.1, h.read m.2⟩) ov
  if (broadcastOversampling ov).reverse.any (· ≤ 0) then (h, result)
  else
    -- data = data.astype(float)
    let cref := h.size
    let h1 := h.alloc (h.read dref)
    match mask with
    | none =>
        -- data[~np.isfinite(data)] = 0.
        (h1.write cref ((h1.read cref).map fun v =>
          if v.isfinite then v else PVal.fin 0), result)
    | some m =>
        if shape ≠ m.1 then (h1, result)
        else
          -- data[mask] = 0., then data[~np.isfinite(data)] = 0.
          let h2 := h1.write cref (((h1.read cref).zip
            ((h1.read m.2).map PVal.truthy)).map fun p => p.1.fillIf p.2)
          (h2.write cref ((h2.read cref).map fun v =>
            if v.isfinite then v else PVal.fin 0), result)

/-- `gaussian1d_moments` over the store: `np.ma.array` is a view;
`np.ma.masked_invalid` allocates a copy when non-finite values are
present; setting the mask attribute touches no caller buffer;
`filled()` allocates a copy when a mask array exists and otherwise
returns the caller's own buffer, which is then only read. Nothing is
ever written in place. -/
def gaussian1d_momentsMem (h : Heap) (dref : ℕ) (mref : Option ℕ) :
    Heap × Except String (ℚ × PVal × PVal) :=
  let d := h.read dref
  let mbits := mref.map fun r => (h.read r).map PVal.truthy
  let result := gaussian1d_moments d mbits
  let anyNF := d.any fun v => !v.isfinite
  let h1 := if anyNF then h.alloc d else h
  match mbits with
  | some m =>
      if d.length ≠ m.length then (h1, result)
      else
        (h1.alloc ((d.zip (orMasks
          (if anyNF then some (d.map fun v => !v.isfinite) else none)
          m)).map fun p => if p.2 then PVal.fin 0 else p.1), result)
  | none =>
      if anyNF then
        (h1.alloc (d.map fun v => if v.isfinite then v else PVal.fin 0),
          result)
      else (h1, result)

/-- `centroid_epsf` over the store: `astype(float)` allocates a copy,
`data[mask] = 0.` writes that copy in place, everything afterwards only
reads. -/
def centroid_epsfMem (h : Heap) (d : ArrRef) (mask : Option ArrRef)
    (ov : ScalarOrList ℚ) (sv : ℚ) : Heap × Except String (PVal × PVal) :=
  let result := centroid_epsf (h.arr d)
    (mask.map fun m => ⟨m.ny, m.nx, h.read m.ref⟩) ov sv
  if (broadcastOversampling ov).any (· ≤ 0) then (h, result)
  else
    -- data = data.astype(float)
    let cref := h.size
    let h1 := h.alloc (h.read d.ref)
    match mask with
    | none => (h1, result)
    | some m =>
        if (d.ny, d.nx) ≠ (m.ny, m.nx) then (h1, result)
        else
          -- data[mask] = 0.
          (h1.write cref (((h1.read cref).zip
            ((h1.read m.ref).map PVal.truthy)).map fun p =>
              p.1.fillIf p.2), result)

/-- Minimum of a list of rationals (`np.min`; 0 on an empty list). -/
def minQ : List ℚ → ℚ
  | [] => 0
  | q :: rest => rest.foldl min q

/-- `fit_2dgaussian` over the store: `np.ma.asanyarray` aliases the
caller's buffer; `masked_invalid` allocates copies; the weights are
fresh buffers (`np.ones` or the clip/reciprocal results) and the only
in-place write, `weights[data.mask] = 0.`, targets them; `filled()`
allocates a copy when a mask exists and otherwise hands back the data
buffer, which is only read from there on; `data - np.min(data)` is a
fresh buffer. The value returned is that of the pure embedding. -/
def fit_2dgaussianMem (h : Heap) (d : ArrRef) (e : Option ArrRef)
    (m : Option ArrRef) (props : Arr2 → List Bool → ShapeProps)
    (fitter : GaussianConst2DParams → Arr2 → List PVal →
      GaussianConst2DParams) : Heap × Except String GaussianConst2DParams :=
  let dcells := h.read d.ref
  let result := fit_2dgaussian (h.arr d) (e.map fun a => h.arr a)
    (m.map fun a => h.maskOf a) props fitter
  let tail : Heap → ℕ → Option (List Bool) →
      Heap × Except String GaussianConst2DParams :=
    fun h' wref dmask =>
    if (match dmask with
        | none => dcells.length
        | some dm => countFalse dm) < 7 then (h', result)
    else
      -- weights[data.mask] = 0.: writes the fresh weights buffer
      let h4 := match dmask with
        | none => h'
        | some dm => h'.write wref (((h'.read wref).zip dm).map
            fun p : PVal × Bool => if p.2 then PVal.fin 0 else p.1)
      -- data.filled(): a copy when a mask array exists
      let filled : List PVal := match dmask with
        | none => dcells
        | some dm => (dcells.zip dm).map
            fun p : PVal × Bool => if p.2 then PVal.fin 0 else p.1
      let h5 := match dmask with
        | none => h4
        | some _ => h4.alloc filled
      -- data - np.min(data): a fresh buffer handed to data_properties
      let h6 := h5.alloc (filled.map fun v : PVal =>
        v.sub (PVal.fin (minQ (filled.map PVal.fillNonfinite))))
      (h6, result)
  match (match m with
    | none => Except.ok (none : Option (List Bool))
    | some mk =>
        if (d.ny, d.nx) ≠ (mk.ny, mk.nx) then
          Except.error "data and mask must have the same shape."
        else Except.ok (some ((h.read mk.ref).map PVal.truthy))) with
  | Except.error _ => (h, result)
  | Except.ok dmask =>
      -- np.ma.masked_invalid(data): a copy when non-finite present
      let anyNF := dcells.any fun v => !v.isfinite
      let h1 := if anyNF then h.alloc dcells else h
      let dmask := if anyNF then
          some (orMasks dmask (dcells.map fun v => !v.isfinite))
        else dmask
      match e with
      | none =>
          -- weights = np.ones(data.shape)
          tail (h1.alloc (List.replicate dcells.length (PVal.fin 1)))
            h1.size dmask
      | some er =>
          -- error = np.ma.masked_invalid(error): always a copy
          let h2 := h1.alloc (h1.read er.ref)
          if (d.ny, d.nx) ≠ (er.ny, er.nx) then (h2, result)
          else
            -- data.mask |= error.mask (attribute only);
            -- weights = 1.0 / error.clip(min=1e-30): a fresh buffer
            tail (h2.alloc ((h.read er.ref).map fun v =>
                (PVal.fin 1).div (v.clipMin (1 / 10 ^ 30))))
              h2.size
              (some (orMasks dmask ((h.read er.ref).map fun v =>
                !v.isfinite)))

/-- `centroid_2dg` over the store: delegates to `fit_2dgaussianMem` and
projects the fitted center. -/
def centroid_2dgMem (h : Heap) (d : ArrRef) (e : Option ArrRef)
    (m : Option ArrRef) (props : Arr2 → List Bool → ShapeProps)
    (fitter : GaussianConst2DParams → Arr2 → List PVal →
      GaussianConst2DParams) : Heap × Except String (ℚ × ℚ) :=
  let r := fit_2dgaussianMem h d e m props fitter
  (r.1, r.2.map fun g => (g.xMean, g.yMean))

/-- `centroid_1dg` over the store: `np.ma.asanyarray` aliases the
caller's buffer; `data.mask |= mask` touches only the mask attribute;
`masked_invalid` allocates a data copy when non-finite values are
present and always allocates an error copy; the two weight buffers are
fresh (`np.ones` per axis, or the per-axis reciprocal of the clipped
masked sum of squared errors — stored without the square root, whose
buffer contents do not matter here) and the masked-row/column zero
assignments write only them; the two marginal-sum buffers are fresh.
A fully masked axis sum is stored as 0. The fit itself only reads.
The returned value only records success or the `ValueError` raised. -/
def centroid_1dgMem (h : Heap) (d : ArrRef) (e : Option ArrRef)
    (m : Option ArrRef) : Heap × Except String Unit :=
  let dcells := h.read d.ref
  let tail : Heap → ℕ → ℕ → Option (List Bool) → Heap :=
    fun h' w0 w1 dmask =>
    -- the zero-filled view the masked marginal sums read
    let fa : Arr2 := ⟨d.ny, d.nx,
      match dmask with
      | none => dcells
      | some dm => (dcells.zip dm).map fun p : PVal × Bool =>
          if p.2 then PVal.fin 0 else p.1⟩
    let h5 := match dmask with
      | none => h'
      | some dm =>
          -- xy_weights[i][bad_idx[i]] = 0.: in-place writes, but only
          -- on the two fresh weight buffers
          let badCol := (List.range d.nx).map fun x =>
            (List.range d.ny).all fun y => dm.getD (y * d.nx + x) false
          let badRow := (List.range d.ny).map fun y =>
            (List.range d.nx).all fun x => dm.getD (y * d.nx + x) false
          let h4 := h'.write w0 (((h'.read w0).zip badCol).map
            fun p : PVal × Bool => if p.2 then PVal.fin 0 else p.1)
          h4.write w1 (((h4.read w1).zip badRow).map
            fun p : PVal × Bool => if p.2 then PVal.fin 0 else p.1)
    -- xy_data: the two masked marginal sums, fresh buffers
    (h5.alloc ((List.range d.nx).map fun x =>
        psum ((List.range d.ny).map fun y => fa.at y x))).alloc
      ((List.range d.ny).map fun y =>
        psum ((List.range d.nx).map fun x => fa.at y x))
  match (match m with
    | none => Except.ok (none : Option (List Bool))
    | some mk =>
        if (d.ny, d.nx) ≠ (mk.ny, mk.nx) then
          Except.error "data and mask must have the same shape."
        else Except.ok (some ((h.read mk.ref).map PVal.truthy))) with
  | Except.error s => (h, Except.error s)
  | Except.ok dmask =>
      -- np.ma.masked_invalid(data): a data copy when non-finite present
      let anyNF := dcells.any fun v => !v.isfinite
      let h1 := if anyNF then h.alloc dcells else h
      let dmask := if anyNF then
          some (orMasks dmask (dcells.map fun v => !v.isfinite))
        else dmask
      match e with
      | none =>
          -- xy_weights = [np.ones(nx), np.ones(ny)]: fresh buffers
          let w0 := h1.size
          let h2 := h1.alloc (List.replicate d.nx (PVal.fin 1))
          let w1 := h2.size
          let h3 := h2.alloc (List.replicate d.ny (PVal.fin 1))
          (tail h3 w0 w1 dmask, Except.ok ())
      | some er =>
          -- error = np.ma.masked_invalid(error): always a copy
          let h2 := h1.alloc (h1.read er.ref)
          if (d.ny, d.nx) ≠ (er.ny, er.nx) then
            (h2, Except.error "data and error must have the same shape.")
          else
            -- data.mask |= error.mask, error.mask = data.mask:
            -- attribute updates only
            let dm := orMasks dmask ((h.read er.ref).map fun v =>
              !v.isfinite)
            let efq : Arr2 := ⟨d.ny, d.nx,
              ((h.read er.ref).zip dm).map fun p : PVal × Bool =>
                if p.2 then PVal.fin 0 else p.1.mul p.1⟩
            let w0 := h2.size
            let h3 := h2.alloc ((List.range d.nx).map fun x =>
              (PVal.fin 1).div ((psum ((List.range d.ny).map fun y =>
                efq.at y x)).clipMin (1 / 10 ^ 30)))
            let w1 := h3.size
            let h4 := h3.alloc ((List.range d.ny).map fun y =>
              (PVal.fin 1).div ((psum ((List.range d.nx).map fun x =>
                efq.at y x)).clipMin (1 / 10 ^ 30)))
            (tail h4 w0 w1 (some dm), Except.ok ())

/-- `centroid_sources` over the store: the validation stage only reads;
`np.ones(box_size, dtype=bool)` is a fresh footprint buffer (a given
footprint is aliased by `np.asanyarray`), and it is built before the
callable's keyword check; the data, mask and error cutouts are basic
slices, hence views; per position, `~footprint` is a fresh buffer and,
when a mask array is given, so is the `np.logical_or` combined mask.
The centroiding callable is the pure capability of the external
contract. The value returned is that of the pure embedding; boolean
buffers store 1 for `True` and 0 for `False`. -/
def centroid_sourcesMem (h : Heap) (d : ArrRef) (xpos ypos : NDSeq)
    (box_size : Option BoxArg) (fpr : Option (List ℕ × ℕ))
    (e : Option ArrRef) (m : Option ArrRef) (cfunc : CentroidFunc)
    (overlap : OverlapFn) : Heap × Except String (List ℚ × List ℚ) :=
  let fpnd : Option NDB := fpr.map fun p =>
    ⟨p.1, (h.read p.2).map PVal.truthy⟩
  let result := centroid_sources (h.arr d) xpos ypos box_size fpnd
    (e.map fun a => h.arr a) (m.map fun a => h.maskOf a) cfunc overlap
  match xpos.atleast1d, ypos.atleast1d with
  | NDSeq.oneD xs, NDSeq.oneD ys =>
      match resolveFootprint box_size fpnd with
      | Except.error _ => (h, result)
      | Except.ok fp =>
          -- np.ones(box_size, dtype=bool): fresh, and built before the
          -- callable's keyword check
          let h0 := match fpr with
            | none => h.alloc (fp.cells.map fun b =>
                if b then PVal.fin 1 else PVal.fin 0)
            | some _ => h
          if cfunc.hasMask = false then (h0, result)
          else
            ((xs.zip ys).foldl (fun hAcc p =>
              -- footprint_mask = ~footprint: a fresh buffer
              let h1 := hAcc.alloc (fp.cells.map fun b =>
                if b then PVal.fin 0 else PVal.fin 1)
              match m with
              | none => h1
              | some mk =>
                  -- np.logical_or(mask_cutout, footprint_mask): fresh
                  let sl := (overlap (d.ny, d.nx) (fp.ny, fp.nx)
                    (p.2, p.1)).1
                  let ss := (overlap (d.ny, d.nx) (fp.ny, fp.nx)
                    (p.2, p.1)).2
                  let fpm := (Mask2.neg fp).slice2 ss.1 ss.2
                  h1.alloc ((((h.maskOf mk).slice2 sl.1 sl.2).orWith
                    fpm).cells.map fun b =>
                      if b then PVal.fin 1 else PVal.fin 0)) h0, result)
  | _, _ => (h, result)

theorem fp_alloc_of (h h2 : Heap) (b : List PVal)
    (hf : FramePreserved h h2) : FramePreserved h (h2.alloc b) :=
  fp_trans h h2 (h2.alloc b) hf (fp_alloc h2 b)

theorem fp_write_size (h hX h2 : Heap) (b : List PVal)
    (hfX : FramePreserved h hX) (hf2 : FramePreserved h h2) :
    FramePreserved h (h2.write (Heap.size hX) b) :=
  fp_write_fresh h h2 (Heap.size hX) b hf2 hfX.1

theorem fp_foldl {α : Type} (f : Heap → α → Heap)
    (hstep : ∀ (hh : Heap) (a : α), FramePreserved hh (f hh a)) :
    ∀ (l : List α) (h0 : Heap), FramePreserved h0 (List.foldl f h0 l)
  | [], h0 => fp_refl h0
  | a :: rest, h0 =>
      fp_trans h0 (f h0 a) (List.foldl f (f h0 a) rest) (hstep h0 a)
        (fp_foldl f hstep rest (f h0 a))

theorem comMem_frame (h : Heap) (shape : List ℕ) (dref : ℕ)
    (mask : Option (List ℕ × ℕ)) (ov : ScalarOrList ℚ) :
    FramePreserved h (centroid_comMem h shape dref mask ov).1 := by
  simp only [centroid_comMem]
  repeat' split
  all_goals repeat' first
    | exact fp_refl h
    | exact fp_alloc h _
    | apply fp_alloc_of h
    | apply fp_write_size h

theorem g1mMem_frame (h : Heap) (dref : ℕ) (mref : Option ℕ) :
    FramePreserved h (gaussian1d_momentsMem h dref mref).1 := by
  simp only [gaussian1d_momentsMem]
  repeat' split
  all_goals repeat' first
    | exact fp_refl h
    | exact fp_alloc h _
    | apply fp_alloc_of h

theorem epsfMem_frame (h : Heap) (d : ArrRef) (mask : Option ArrRef)
    (ov : ScalarOrList ℚ) (sv : ℚ) :
    FramePreserved h (centroid_epsfMem h d mask ov sv).1 := by
  simp only [centroid_epsfMem]
  repeat' split
  all_goals repeat' first
    | exact fp_refl h
    | exact fp_alloc h _
    | apply fp_alloc_of h
    | apply fp_write_size h

theorem fit2dgMem_frame (h : Heap) (d : ArrRef) (e : Option ArrRef)
    (m : Option ArrRef) (props : Arr2 → List Bool → ShapeProps)
    (fitter : GaussianConst2DParams → Arr2 → List PVal →
      GaussianConst2DParams) :
    FramePreserved h (fit_2dgaussianMem h d e m props fitter).1 := by
  simp only [fit_2dgaussianMem]
  repeat' split
  all_goals repeat' first
    | exact fp_refl h
    | exact fp_alloc h _
    | apply fp_alloc_of h
    | apply fp_write_size h

theorem c2dgMem_frame (h : Heap) (d : ArrRef) (e : Option ArrRef)
    (m : Option ArrRef) (props : Arr2 → List Bool → ShapeProps)
    (fitter : GaussianConst2DParams → Arr2 → List PVal →
      GaussianConst2DParams) :
    FramePreserved h (centroid_2dgMem h d e m props fitter).1 :=
  fit2dgMem_frame h d e m props fitter

theorem c1dgMem_frame (h : Heap) (d : ArrRef) (e : Option ArrRef)
    (m : Option ArrRef) :
    FramePreserved h (centroid_1dgMem h d e m).1 := by
  simp only [centroid_1dgMem]
  repeat' split
  all_goals repeat' first
    | exact fp_refl h
    | exact fp_alloc h _
    | apply fp_alloc_of h
    | apply fp_write_size h

theorem sourcesMem_frame (h : Heap) (d : ArrRef) (xpos ypos : NDSeq)
    (box_size : Option BoxArg) (fpr : Option (List ℕ × ℕ))
    (e : Option ArrRef) (m : Option ArrRef) (cfunc : CentroidFunc)
    (overlap : OverlapFn) :
    FramePreserved h (centroid_sourcesMem h d xpos ypos box_size fpr e m
      cfunc overlap).1 := by
  simp only [centroid_sourcesMem]
  repeat' split
  all_goals try first
    | exact fp_refl h
    | exact fp_alloc h _
  all_goals refine fp_trans h _ _ ?_ (fp_foldl _ ?_ _ _)
  any_goals first
    | exact fp_refl h
    | exact fp_alloc h _
  all_goals intro hh p
  all_goals first
    | exact fp_alloc hh _
    | exact fp_alloc_of hh _ _ (fp_alloc hh _)

/-- C9: No public function mutates its caller's arrays. Over the store
model — plain (non-masked) ndarrays as heap buffers, the external
collaborators as the pure capabilities of their contracts — each of the
seven public functions of the module only allocates fresh buffers and
writes in place exclusively to buffers it allocated itself (the
`astype` copy, the weight arrays): for every input heap, every buffer
that existed before the call holds exactly the same contents after it,
on every control path including the error paths. -/
theorem no_public_function_mutates_caller_arrays :
    (∀ (h : Heap) (shape : List ℕ) (dref : ℕ)
       (mask : Option (List ℕ × ℕ)) (ov : ScalarOrList ℚ),
       FramePreserved h (centroid_comMem h shape dref mask ov).1) ∧
    (∀ (h : Heap) (dref : ℕ) (mref : Option ℕ),
       FramePreserved h (gaussian1d_momentsMem h dref mref).1) ∧
    (∀ (h : Heap) (d : ArrRef) (e m : Option ArrRef),
       FramePreserved h (centroid_1dgMem h d e m).1) ∧
    (∀ (h : Heap) (d : ArrRef) (e m : Option ArrRef)
       (props : Arr2 → List Bool → ShapeProps)
       (fitter : GaussianConst2DParams → Arr2 → List PVal →
         GaussianConst2DParams),
       FramePreserved h (fit_2dgaussianMem h d e m props fitter).1) ∧
    (∀ (h : Heap) (d : ArrRef) (e m : Option ArrRef)
       (props : Arr2 → List Bool → ShapeProps)
       (fitter : GaussianConst2DParams → Arr2 → List PVal →
         GaussianConst2DParams),
       FramePreserved h (centroid_2dgMem h d e m props fitter).1) ∧
    (∀ (h : Heap) (d : ArrRef) (xpos ypos : NDSeq)
       (box_size : Option BoxArg) (fpr : Option (List ℕ × ℕ))
       (e m : Option ArrRef) (cfunc : CentroidFunc) (overlap : OverlapFn),
       FramePreserved h (centroid_sourcesMem h d xpos ypos box_size fpr
         e m cfunc overlap).1) ∧
    (∀ (h : Heap) (d : ArrRef) (mask : Option ArrRef)
       (ov : ScalarOrList ℚ) (sv : ℚ),
       FramePreserved h (centroid_epsfMem h d mask ov sv).1) :=
  ⟨comMem_frame, g1mMem_frame, c1dgMem_frame, fit2dgMem_frame,
    c2dgMem_frame, sourcesMem_frame, epsfMem_frame⟩
